import Mathlib

/-!
# Static packet-filter rule engine

Shallow embedding of the two rule matchers of the repository:

* `iptablesToSMT/iptables_rules.c`: the extended matcher (address masks, port
  ranges, connection-state bitmap), namespace `iptables_rules`;
* `iptablesToSMT/test_rules.c`: the simple exact-match matcher, namespace
  `test_rules`.

Conventions of the embedding.

* `uint32_t`, `uint16_t` and `uint8_t` values are natural numbers; the only
  operations the matchers apply to them are `&`, `==`, `!=`, `<` and `>`, none
  of which can leave the range of the operands, so no reduction modulo `2^w`
  is needed. `int` values (`proto`, `action`, `rules_count`) are integers.
* The global array `rules[MAX_RULES]` is a list (the contents of the array) and
  the global `rules_count` an integer. Reading `rules[i]` past the end of the
  array is undefined in C; the embedding returns `none` there.
* The `for` loop of `check_packet` is a recursion on the number of iterations
  still to run, `rules_count - i`.
* In `iptables_rules.c` the local `current_state` is assigned inside the loop,
  once for every rule with `has_state`: `STATE_NEW` in the plain build, a fresh
  symbolic value under `USE_KLEE`. The embedding takes the value assigned at
  iteration `i` as `current_state i`. A packet that carries one connection
  state `s` is `current_state = fun _ => s`.
-/

/-- `#define ACTION_DROP 0` (both files). -/
def ACTION_DROP : Int := 0

/-- `#define ACTION_ACCEPT 1` (both files). -/
def ACTION_ACCEPT : Int := 1

/-- `#define MAX_RULES 128` (both files). -/
def MAX_RULES : Nat := 128

/-- `#define STATE_NEW 1`. -/
def STATE_NEW : Nat := 1

/-- `#define STATE_ESTABLISHED 2`. -/
def STATE_ESTABLISHED : Nat := 2

/-- `#define STATE_RELATED 4`. -/
def STATE_RELATED : Nat := 4

/-- `#define STATE_INVALID 8`. -/
def STATE_INVALID : Nat := 8

namespace iptables_rules

/-- The rule record of `iptables_rules.c` (lines 12-25). -/
structure ipt_rule_t where
  proto : Int
  src_ip : Nat
  src_mask : Nat
  dst_ip : Nat
  dst_mask : Nat
  src_port : Nat
  src_port_high : Nat
  dst_port : Nat
  dst_port_high : Nat
  has_state : Bool
  state_mask : Nat
  action : Int
deriving DecidableEq, Repr

/-- The two globals of `iptables_rules.c`: `rules[MAX_RULES]` and `rules_count`. -/
structure Globals where
  rules : List ipt_rule_t
  rules_count : Int
deriving DecidableEq, Repr

/-- A zero-initialised array entry (C static storage). -/
def zero_rule : ipt_rule_t :=
  { proto := 0, src_ip := 0, src_mask := 0, dst_ip := 0, dst_mask := 0,
    src_port := 0, src_port_high := 0, dst_port := 0, dst_port_high := 0,
    has_state := false, state_mask := 0, action := 0 }

/-- The globals at program start: `ipt_rule_t rules[MAX_RULES]; int rules_count = 0;`. -/
def globals_start : Globals :=
  { rules := List.replicate MAX_RULES zero_rule, rules_count := 0 }

/-- `apply_mask` (lines 36-38): `return ip & mask;`. -/
def apply_mask (ip mask : Nat) : Nat := ip &&& mask

/-- Condition of the `if` at line 154, which clears `match`. -/
def proto_mismatch (r : ipt_rule_t) (proto : Int) : Bool :=
  r.proto != -1 && r.proto != proto

/-- Condition of the `if` at lines 159-160, which clears `match`. -/
def src_ip_mismatch (r : ipt_rule_t) (src_ip : Nat) : Bool :=
  r.src_mask != 0 && apply_mask src_ip r.src_mask != apply_mask r.src_ip r.src_mask

/-- Condition of the `if` at lines 165-166, which clears `match`. -/
def dst_ip_mismatch (r : ipt_rule_t) (dst_ip : Nat) : Bool :=
  r.dst_mask != 0 && apply_mask dst_ip r.dst_mask != apply_mask r.dst_ip r.dst_mask

/-- Condition of the `if` at lines 171-172, which clears `match`. -/
def src_port_mismatch (r : ipt_rule_t) (src_port : Nat) : Bool :=
  r.src_port != 0 && (decide (src_port < r.src_port) || decide (src_port > r.src_port_high))

/-- Condition of the `if` at lines 177-178, which clears `match`. -/
def dst_port_mismatch (r : ipt_rule_t) (dst_port : Nat) : Bool :=
  r.dst_port != 0 && (decide (dst_port < r.dst_port) || decide (dst_port > r.dst_port_high))

/-- The nested `if`s at lines 183 and 195: `match` is cleared when the rule has
`has_state` and `(state_mask & current_state) == 0`. -/
def state_mismatch (r : ipt_rule_t) (current_state : Nat) : Bool :=
  r.has_state && (r.state_mask &&& current_state) == 0

/-- The loop body up to line 199: the value of the flag `match` for rule `r`. -/
def rule_match (r : ipt_rule_t) (current_state : Nat)
    (src_ip dst_ip src_port dst_port : Nat) (proto : Int) : Bool :=
  let m := true
  let m := if proto_mismatch r proto then false else m
  let m := if src_ip_mismatch r src_ip then false else m
  let m := if dst_ip_mismatch r dst_ip then false else m
  let m := if src_port_mismatch r src_port then false else m
  let m := if dst_port_mismatch r dst_port then false else m
  let m := if state_mismatch r current_state then false else m
  m

/-- The `for` loop of `check_packet` (lines 150-205) entered at index `i` with
`n` iterations still to run. -/
def check_packet_loop (rules : List ipt_rule_t) (current_state : Nat → Nat)
    (src_ip dst_ip src_port dst_port : Nat) (proto : Int) : Nat → Nat → Option Int
  | 0, _ => some ACTION_DROP
  | n + 1, i =>
    match rules[i]? with
    | none => none
    | some r =>
      if rule_match r (current_state i) src_ip dst_ip src_port dst_port proto then
        some r.action
      else
        check_packet_loop rules current_state src_ip dst_ip src_port dst_port proto n (i + 1)

/-- `check_packet` of `iptables_rules.c` (lines 149-206). -/
def check_packet (rules : List ipt_rule_t) (rules_count : Int) (current_state : Nat → Nat)
    (src_ip dst_ip src_port dst_port : Nat) (proto : Int) : Option Int :=
  check_packet_loop rules current_state src_ip dst_ip src_port dst_port proto
    rules_count.toNat 0

/-- `init_rules` of `iptables_rules.c` (lines 40-147): eight entries are written
and `rules_count` is set to 8. -/
def init_rules (g : Globals) : Globals :=
  let accept_zero (p : Int) : ipt_rule_t :=
    { proto := p, src_ip := 0, src_mask := 0xFFFFFFFF, dst_ip := 0, dst_mask := 0xFFFFFFFF,
      src_port := 0, src_port_high := 0, dst_port := 0, dst_port_high := 0,
      has_state := false, state_mask := 0, action := 1 }
  let rules := g.rules.set 0 (accept_zero 6)
  let rules := rules.set 1 (accept_zero 6)
  let rules := rules.set 2 (accept_zero 6)
  let rules := rules.set 3 (accept_zero 6)
  let rules := rules.set 4 (accept_zero 17)
  let rules := rules.set 5 (accept_zero 6)
  let rules := rules.set 6 (accept_zero 6)
  let rules := rules.set 7
    { proto := -1, src_ip := 0, src_mask := 0, dst_ip := 0, dst_mask := 0,
      src_port := 0, src_port_high := 0, dst_port := 0, dst_port_high := 0,
      has_state := false, state_mask := 0, action := 0 }
  { rules := rules, rules_count := 8 }

/-- `main` built with `USE_KLEE` (lines 209-242): the five arguments are the
symbolic inputs; `none` stands for a read outside `rules` or a failed
`klee_assert`. -/
def main_klee (current_state : Nat → Nat) (src_ip dst_ip src_port dst_port : Nat)
    (proto : Int) : Option Int :=
  let g := init_rules globals_start
  match check_packet g.rules g.rules_count current_state src_ip dst_ip src_port dst_port proto with
  | none => none
  | some result =>
    if result == ACTION_ACCEPT then
      if result == ACTION_ACCEPT then some result else none
    else
      if result == ACTION_DROP then some result else none

/-- `main` built without `USE_KLEE`: the default test values of lines 222-226,
and `current_state = STATE_NEW` (line 193). -/
def main : Option Int :=
  let g := init_rules globals_start
  check_packet g.rules g.rules_count (fun _ => STATE_NEW) 3232235876 0 1024 80 6

/-- Specification predicate: all six predicates of a rule pass for a packet
(protocol, masked source address, masked destination address, source-port
range, destination-port range, connection state), in the words of the
specification. -/
def all_predicates_pass (r : ipt_rule_t) (state : Nat)
    (src_ip dst_ip src_port dst_port : Nat) (proto : Int) : Prop :=
  (r.proto = -1 ∨ r.proto = proto) ∧
  (r.src_mask = 0 ∨ src_ip &&& r.src_mask = r.src_ip &&& r.src_mask) ∧
  (r.dst_mask = 0 ∨ dst_ip &&& r.dst_mask = r.dst_ip &&& r.dst_mask) ∧
  (r.src_port = 0 ∨ (r.src_port ≤ src_port ∧ src_port ≤ r.src_port_high)) ∧
  (r.dst_port = 0 ∨ (r.dst_port ≤ dst_port ∧ dst_port ≤ r.dst_port_high)) ∧
  (r.has_state = false ∨ r.state_mask &&& state ≠ 0)

instance (r : ipt_rule_t) (state src_ip dst_ip src_port dst_port : Nat) (proto : Int) :
    Decidable (all_predicates_pass r state src_ip dst_ip src_port dst_port proto) := by
  unfold all_predicates_pass; infer_instance

/-- Specification predicate: a universal rule, in the words of the
specification (protocol ANY, both masks zero, both port-low values zero, no
state requirement). -/
def universal_rule (r : ipt_rule_t) : Prop :=
  r.proto = -1 ∧ r.src_mask = 0 ∧ r.dst_mask = 0 ∧ r.src_port = 0 ∧ r.dst_port = 0 ∧
    r.has_state = false

instance (r : ipt_rule_t) : Decidable (universal_rule r) := by
  unfold universal_rule; infer_instance

/-- The catch-all rule written to `rules[7]` by `init_rules` (lines 133-144):
protocol ANY, nothing constrained, action DROP. -/
def catch_all_drop : ipt_rule_t :=
  { proto := -1, src_ip := 0, src_mask := 0, dst_ip := 0, dst_mask := 0,
    src_port := 0, src_port_high := 0, dst_port := 0, dst_port_high := 0,
    has_state := false, state_mask := 0, action := 0 }

/-- Scenario 2 of the specification: `{proto=TCP, dport=[22,22], ACCEPT}`, every
other field unconstrained. -/
def scenario_ssh_rule : ipt_rule_t :=
  { proto := 6, src_ip := 0, src_mask := 0, dst_ip := 0, dst_mask := 0,
    src_port := 0, src_port_high := 0, dst_port := 22, dst_port_high := 22,
    has_state := false, state_mask := 0, action := 1 }

/-- Scenario 3 of the specification: `{proto=UDP, dst_ip=2886795265 (masked
full), dport=[4500,4500], ACCEPT}`, every other field unconstrained. -/
def scenario_ipsec_rule : ipt_rule_t :=
  { proto := 17, src_ip := 0, src_mask := 0, dst_ip := 2886795265, dst_mask := 0xFFFFFFFF,
    src_port := 0, src_port_high := 0, dst_port := 4500, dst_port_high := 4500,
    has_state := false, state_mask := 0, action := 1 }

/-- Scenario 4 of the specification: a rule with `has_state` set and
`state_mask = ESTABLISHED|RELATED`, every other field unconstrained. -/
def scenario_state_rule : ipt_rule_t :=
  { proto := -1, src_ip := 0, src_mask := 0, dst_ip := 0, dst_mask := 0,
    src_port := 0, src_port_high := 0, dst_port := 0, dst_port_high := 0,
    has_state := true, state_mask := STATE_ESTABLISHED ||| STATE_RELATED, action := 1 }

end iptables_rules

namespace test_rules

/-- The rule record of `test_rules.c` (lines 12-19). -/
structure ipt_rule_t where
  proto : Int
  src_ip : Nat
  dst_ip : Nat
  src_port : Nat
  dst_port : Nat
  action : Int
deriving DecidableEq, Repr

/-- The two globals of `test_rules.c`: `rules[MAX_RULES]` and `rules_count`. -/
structure Globals where
  rules : List ipt_rule_t
  rules_count : Int
deriving DecidableEq, Repr

/-- A zero-initialised array entry (C static storage). -/
def zero_rule : ipt_rule_t :=
  { proto := 0, src_ip := 0, dst_ip := 0, src_port := 0, dst_port := 0, action := 0 }

/-- The globals at program start: `ipt_rule_t rules[MAX_RULES]; int rules_count = 0;`. -/
def globals_start : Globals :=
  { rules := List.replicate MAX_RULES zero_rule, rules_count := 0 }

/-- Condition of the `if` at line 155, which clears `match`. -/
def proto_mismatch (r : ipt_rule_t) (proto : Int) : Bool :=
  r.proto != -1 && r.proto != proto

/-- Condition of the `if` at line 160, which clears `match`. -/
def src_ip_mismatch (r : ipt_rule_t) (src_ip : Nat) : Bool :=
  r.src_ip != 0 && r.src_ip != src_ip

/-- Condition of the `if` at line 165, which clears `match`. -/
def dst_ip_mismatch (r : ipt_rule_t) (dst_ip : Nat) : Bool :=
  r.dst_ip != 0 && r.dst_ip != dst_ip

/-- Condition of the `if` at line 170, which clears `match`. -/
def src_port_mismatch (r : ipt_rule_t) (src_port : Nat) : Bool :=
  r.src_port != 0 && r.src_port != src_port

/-- Condition of the `if` at line 175, which clears `match`. -/
def dst_port_mismatch (r : ipt_rule_t) (dst_port : Nat) : Bool :=
  r.dst_port != 0 && r.dst_port != dst_port

/-- The loop body up to line 178: the value of the flag `match` for rule `r`. -/
def rule_match (r : ipt_rule_t) (src_ip dst_ip src_port dst_port : Nat) (proto : Int) : Bool :=
  let m := true
  let m := if proto_mismatch r proto then false else m
  let m := if src_ip_mismatch r src_ip then false else m
  let m := if dst_ip_mismatch r dst_ip then false else m
  let m := if src_port_mismatch r src_port then false else m
  let m := if dst_port_mismatch r dst_port then false else m
  m

/-- The `for` loop of `check_packet` (lines 151-184) entered at index `i` with
`n` iterations still to run. -/
def check_packet_loop (rules : List ipt_rule_t)
    (src_ip dst_ip src_port dst_port : Nat) (proto : Int) : Nat → Nat → Option Int
  | 0, _ => some ACTION_DROP
  | n + 1, i =>
    match rules[i]? with
    | none => none
    | some r =>
      if rule_match r src_ip dst_ip src_port dst_port proto then
        some r.action
      else
        check_packet_loop rules src_ip dst_ip src_port dst_port proto n (i + 1)

/-- `check_packet` of `test_rules.c` (lines 150-185). -/
def check_packet (rules : List ipt_rule_t) (rules_count : Int)
    (src_ip dst_ip src_port dst_port : Nat) (proto : Int) : Option Int :=
  check_packet_loop rules src_ip dst_ip src_port dst_port proto rules_count.toNat 0

/-- `init_rules` of `test_rules.c` (lines 26-148): seventeen entries are written
and `rules_count` is set to 17. -/
def init_rules (g : Globals) : Globals :=
  let rule (p : Int) (s d sp dp : Nat) (a : Int) : ipt_rule_t :=
    { proto := p, src_ip := s, dst_ip := d, src_port := sp, dst_port := dp, action := a }
  let rules := g.rules.set 0 (rule 6 0 0 0 22 1)
  let rules := rules.set 1 (rule 6 0 0 0 80 1)
  let rules := rules.set 2 (rule 6 0 0 0 443 1)
  let rules := rules.set 3 (rule 6 0 0 0 30033 1)
  let rules := rules.set 4 (rule 17 0 0 0 9987 1)
  let rules := rules.set 5 (rule 6 0 0 0 13001 1)
  let rules := rules.set 6 (rule 6 0 0 0 13001 1)
  let rules := rules.set 7 (rule (-1) 0 0 0 0 0)
  let rules := rules.set 8 (rule (-1) 0 0 0 0 1)
  let rules := rules.set 9 (rule (-1) 0 0 0 0 1)
  let rules := rules.set 10 (rule (-1) 0 0 0 0 1)
  let rules := rules.set 11 (rule 6 0 0 0 8080 1)
  let rules := rules.set 12 (rule (-1) 3573669274 0 0 0 1)
  let rules := rules.set 13 (rule 17 0 2886795265 0 4500 1)
  let rules := rules.set 14 (rule 17 0 2886795265 0 500 1)
  let rules := rules.set 15 (rule (-1) 0 0 0 0 0)
  let rules := rules.set 16 (rule (-1) 0 0 0 0 0)
  { rules := rules, rules_count := 17 }

/-- `main` built with `USE_KLEE` (lines 188-221): the five arguments are the
symbolic inputs; `none` stands for a read outside `rules` or a failed
`klee_assert`. -/
def main_klee (src_ip dst_ip src_port dst_port : Nat) (proto : Int) : Option Int :=
  let g := init_rules globals_start
  match check_packet g.rules g.rules_count src_ip dst_ip src_port dst_port proto with
  | none => none
  | some result =>
    if result == ACTION_ACCEPT then
      if result == ACTION_ACCEPT then some result else none
    else
      if result == ACTION_DROP then some result else none

/-- `main` built without `USE_KLEE`: the default test values of lines 201-205. -/
def main : Option Int :=
  let g := init_rules globals_start
  check_packet g.rules g.rules_count 3232235876 0 1024 80 6

/-- Specification predicate: the rule's protocol is -1 or the packet's, and each
of its four other fields is 0 or equal to the packet's field, in the words of
the specification. -/
def all_fields_pass (r : ipt_rule_t) (src_ip dst_ip src_port dst_port : Nat)
    (proto : Int) : Prop :=
  (r.proto = -1 ∨ r.proto = proto) ∧
  (r.src_ip = 0 ∨ r.src_ip = src_ip) ∧
  (r.dst_ip = 0 ∨ r.dst_ip = dst_ip) ∧
  (r.src_port = 0 ∨ r.src_port = src_port) ∧
  (r.dst_port = 0 ∨ r.dst_port = dst_port)

instance (r : ipt_rule_t) (src_ip dst_ip src_port dst_port : Nat) (proto : Int) :
    Decidable (all_fields_pass r src_ip dst_ip src_port dst_port proto) := by
  unfold all_fields_pass; infer_instance

/-- The rule written to `rules[1]` by `init_rules` (lines 35-40): TCP,
destination port 80, ACCEPT. -/
def simple_http_rule : ipt_rule_t :=
  { proto := 6, src_ip := 0, dst_ip := 0, src_port := 0, dst_port := 80, action := 1 }

/-- The catch-all rule written to `rules[7]` by `init_rules` (lines 77-82):
protocol ANY, every field 0, action DROP. -/
def simple_catch_all_drop : ipt_rule_t :=
  { proto := -1, src_ip := 0, dst_ip := 0, src_port := 0, dst_port := 0, action := 0 }

end test_rules

namespace iptables_rules

/-- Scenario 1 of the specification: `{protocol=TCP, all masks/ports
unconstrained, action=ACCEPT}`. -/
def scenario_tcp_rule : ipt_rule_t :=
  { proto := 6, src_ip := 0, src_mask := 0, dst_ip := 0, dst_mask := 0,
    src_port := 0, src_port_high := 0, dst_port := 0, dst_port_high := 0,
    has_state := false, state_mask := 0, action := 1 }

/-- Scenario 5 of the specification: a rule `{sport_low=100, sport_high=50}`,
every other field unconstrained. -/
def scenario_inverted_rule : ipt_rule_t :=
  { proto := -1, src_ip := 0, src_mask := 0, dst_ip := 0, dst_mask := 0,
    src_port := 100, src_port_high := 50, dst_port := 0, dst_port_high := 0,
    has_state := false, state_mask := 0, action := 1 }

/-- The connection state of the build without `USE_KLEE` (line 193):
`current_state = STATE_NEW` at every iteration. -/
def plain_state : Nat → Nat := fun _ => STATE_NEW

/-- Specification construction: a rule of the simple matcher carried to the
extended matcher with ranges collapsed to single values and masks collapsed to
all-ones, `has_state` clear. -/
def embed_all_ones (r : test_rules.ipt_rule_t) : ipt_rule_t :=
  { proto := r.proto, src_ip := r.src_ip, src_mask := 0xFFFFFFFF,
    dst_ip := r.dst_ip, dst_mask := 0xFFFFFFFF,
    src_port := r.src_port, src_port_high := r.src_port,
    dst_port := r.dst_port, dst_port_high := r.dst_port,
    has_state := false, state_mask := 0, action := r.action }

/-- The eight rules that `init_rules` writes (lines 42-144), in order. -/
def init_rule_list : List ipt_rule_t :=
  let accept_zero (p : Int) : ipt_rule_t :=
    { proto := p, src_ip := 0, src_mask := 0xFFFFFFFF, dst_ip := 0, dst_mask := 0xFFFFFFFF,
      src_port := 0, src_port_high := 0, dst_port := 0, dst_port_high := 0,
      has_state := false, state_mask := 0, action := 1 }
  [accept_zero 6, accept_zero 6, accept_zero 6, accept_zero 6, accept_zero 17,
    accept_zero 6, accept_zero 6, catch_all_drop]

/-- The loop of `check_packet` with the indices at which `rules[i]` is read
recorded, one for every iteration run. -/
def check_packet_loop_trace (rules : List ipt_rule_t) (current_state : Nat → Nat)
    (src_ip dst_ip src_port dst_port : Nat) (proto : Int) :
    Nat → Nat → Option Int × List Nat
  | 0, _ => (some ACTION_DROP, [])
  | n + 1, i =>
    match rules[i]? with
    | none => (none, [i])
    | some r =>
      if rule_match r (current_state i) src_ip dst_ip src_port dst_port proto then
        (some r.action, [i])
      else
        let rest := check_packet_loop_trace rules current_state
          src_ip dst_ip src_port dst_port proto n (i + 1)
        (rest.1, i :: rest.2)

/-- `check_packet` with the indices read recorded. -/
def check_packet_trace (rules : List ipt_rule_t) (rules_count : Int) (current_state : Nat → Nat)
    (src_ip dst_ip src_port dst_port : Nat) (proto : Int) : Option Int × List Nat :=
  check_packet_loop_trace rules current_state src_ip dst_ip src_port dst_port proto
    rules_count.toNat 0

/-- The loop of `check_packet` as a transition on the globals: every iteration
reads `rules[i]` from the globals it is handed and hands them on; the body
has no assignment to `rules` or `rules_count`. -/
def check_packet_loop_st (current_state : Nat → Nat)
    (src_ip dst_ip src_port dst_port : Nat) (proto : Int) :
    Nat → Nat → Globals → Option Int × Globals
  | 0, _, g => (some ACTION_DROP, g)
  | n + 1, i, g =>
    match g.rules[i]? with
    | none => (none, g)
    | some r =>
      if rule_match r (current_state i) src_ip dst_ip src_port dst_port proto then
        (some r.action, g)
      else
        check_packet_loop_st current_state src_ip dst_ip src_port dst_port proto n (i + 1) g

/-- A call of `check_packet` on the globals `g`: the value returned and the
globals after the call. -/
def check_packet_call (g : Globals) (current_state : Nat → Nat)
    (src_ip dst_ip src_port dst_port : Nat) (proto : Int) : Option Int × Globals :=
  check_packet_loop_st current_state src_ip dst_ip src_port dst_port proto
    g.rules_count.toNat 0 g

end iptables_rules

namespace test_rules

/-- The loop of `check_packet` as a transition on the globals: every iteration
reads `rules[i]` from the globals it is handed and hands them on; the body
has no assignment to `rules` or `rules_count`. -/
def check_packet_loop_st (src_ip dst_ip src_port dst_port : Nat) (proto : Int) :
    Nat → Nat → Globals → Option Int × Globals
  | 0, _, g => (some ACTION_DROP, g)
  | n + 1, i, g =>
    match g.rules[i]? with
    | none => (none, g)
    | some r =>
      if rule_match r src_ip dst_ip src_port dst_port proto then
        (some r.action, g)
      else
        check_packet_loop_st src_ip dst_ip src_port dst_port proto n (i + 1) g

/-- A call of `check_packet` on the globals `g`: the value returned and the
globals after the call. -/
def check_packet_call (g : Globals) (src_ip dst_ip src_port dst_port : Nat) (proto : Int) :
    Option Int × Globals :=
  check_packet_loop_st src_ip dst_ip src_port dst_port proto g.rules_count.toNat 0 g

/-- The one-rule table of the destination-port example: `{proto=-1, src_ip=0,
dst_ip=0, src_port=0, dst_port=22, action=ACCEPT}`. -/
def dst_port_22_rule : ipt_rule_t :=
  { proto := -1, src_ip := 0, dst_ip := 0, src_port := 0, dst_port := 22, action := 1 }

/-- The one-rule table of the source-address example: `{proto=-1,
src_ip=0xC0A80164, all other fields 0, action=ACCEPT}`. -/
def src_ip_rule : ipt_rule_t :=
  { proto := -1, src_ip := 0xC0A80164, dst_ip := 0, src_port := 0, dst_port := 0, action := 1 }

end test_rules

namespace example_dst_port

/-- `handle_ingress` of `eBPFToSMT/example_dst_port.c` (lines 3-10). The helper
`packet_dst_port` is declared nowhere in the repository; its value on `ctx`,
the packet's destination port, is the parameter. -/
def handle_ingress (packet_dst_port : Nat) : Int :=
  if packet_dst_port == 22 then 1 else 0

end example_dst_port

namespace example_src_ip

/-- `handle_ingress` of `eBPFToSMT/example_src_ip.c` (lines 3-10). The helper
`packet_src_ip` is declared nowhere in the repository; its value on `ctx`,
the packet's 32-bit source address, is the parameter. -/
def handle_ingress (packet_src_ip : Nat) : Int :=
  if packet_src_ip == 0xC0A80164 then 1 else 0

end example_src_ip

namespace test_rules

/-- The seventeen rules that `init_rules` writes (lines 28-145), in order. -/
def init_rule_list : List ipt_rule_t :=
  let rule (p : Int) (s d sp dp : Nat) (a : Int) : ipt_rule_t :=
    { proto := p, src_ip := s, dst_ip := d, src_port := sp, dst_port := dp, action := a }
  [rule 6 0 0 0 22 1, rule 6 0 0 0 80 1, rule 6 0 0 0 443 1, rule 6 0 0 0 30033 1,
    rule 17 0 0 0 9987 1, rule 6 0 0 0 13001 1, rule 6 0 0 0 13001 1, rule (-1) 0 0 0 0 0,
    rule (-1) 0 0 0 0 1, rule (-1) 0 0 0 0 1, rule (-1) 0 0 0 0 1, rule 6 0 0 0 8080 1,
    rule (-1) 3573669274 0 0 0 1, rule 17 0 2886795265 0 4500 1,
    rule 17 0 2886795265 0 500 1, rule (-1) 0 0 0 0 0, rule (-1) 0 0 0 0 0]

/-- The rule written to `rules[13]` by `init_rules` (lines 119-124): UDP,
destination 2886795265, destination port 4500, ACCEPT. -/
def simple_ipsec_rule : ipt_rule_t :=
  { proto := 17, src_ip := 0, dst_ip := 2886795265, src_port := 0, dst_port := 4500,
    action := 1 }

end test_rules

namespace iptables_rules

/-- Specification construction: a rule of the simple matcher carried to the
extended matcher with `src_mask = 0` when `src_ip = 0` and `0xFFFFFFFF`
otherwise (same for `dst_mask`), `src_port_high = src_port`,
`dst_port_high = dst_port` and `has_state = false`. -/
def embed_exact (r : test_rules.ipt_rule_t) : ipt_rule_t :=
  { proto := r.proto,
    src_ip := r.src_ip, src_mask := if r.src_ip = 0 then 0 else 0xFFFFFFFF,
    dst_ip := r.dst_ip, dst_mask := if r.dst_ip = 0 then 0 else 0xFFFFFFFF,
    src_port := r.src_port, src_port_high := r.src_port,
    dst_port := r.dst_port, dst_port_high := r.dst_port,
    has_state := false, state_mask := 0, action := r.action }

/-- The loop body of `check_packet` with the `mask != 0` guards of lines 159 and
165 removed; every other line as in `rule_match`. -/
def rule_match_no_mask_guard (r : ipt_rule_t) (current_state : Nat)
    (src_ip dst_ip src_port dst_port : Nat) (proto : Int) : Bool :=
  let m := true
  let m := if proto_mismatch r proto then false else m
  let m := if apply_mask src_ip r.src_mask != apply_mask r.src_ip r.src_mask then false else m
  let m := if apply_mask dst_ip r.dst_mask != apply_mask r.dst_ip r.dst_mask then false else m
  let m := if src_port_mismatch r src_port then false else m
  let m := if dst_port_mismatch r dst_port then false else m
  let m := if state_mismatch r current_state then false else m
  m

/-- The loop body of `check_packet` with the port-low `!= 0` guards of lines 171
and 177 removed; every other line as in `rule_match`. -/
def rule_match_no_port_guard (r : ipt_rule_t) (current_state : Nat)
    (src_ip dst_ip src_port dst_port : Nat) (proto : Int) : Bool :=
  let m := true
  let m := if proto_mismatch r proto then false else m
  let m := if src_ip_mismatch r src_ip then false else m
  let m := if dst_ip_mismatch r dst_ip then false else m
  let m := if (decide (src_port < r.src_port) || decide (src_port > r.src_port_high)) then false
    else m
  let m := if (decide (dst_port < r.dst_port) || decide (dst_port > r.dst_port_high)) then false
    else m
  let m := if state_mismatch r current_state then false else m
  m

/-- The `for` loop of `check_packet` with the computation of the flag `match`
replaced by `flag`. -/
def check_packet_loop_with (flag : ipt_rule_t → Nat → Nat → Nat → Nat → Nat → Int → Bool)
    (rules : List ipt_rule_t) (current_state : Nat → Nat)
    (src_ip dst_ip src_port dst_port : Nat) (proto : Int) : Nat → Nat → Option Int
  | 0, _ => some ACTION_DROP
  | n + 1, i =>
    match rules[i]? with
    | none => none
    | some r =>
      if flag r (current_state i) src_ip dst_ip src_port dst_port proto then
        some r.action
      else
        check_packet_loop_with flag rules current_state
          src_ip dst_ip src_port dst_port proto n (i + 1)

/-- The variant of `check_packet` whose two address checks have no `mask != 0`
guard. -/
def check_packet_no_mask_guard (rules : List ipt_rule_t) (rules_count : Int)
    (current_state : Nat → Nat) (src_ip dst_ip src_port dst_port : Nat) (proto : Int) :
    Option Int :=
  check_packet_loop_with rule_match_no_mask_guard rules current_state
    src_ip dst_ip src_port dst_port proto rules_count.toNat 0

/-- The variant of `check_packet` whose two port checks have no port-low `!= 0`
guard. -/
def check_packet_no_port_guard (rules : List ipt_rule_t) (rules_count : Int)
    (current_state : Nat → Nat) (src_ip dst_ip src_port dst_port : Nat) (proto : Int) :
    Option Int :=
  check_packet_loop_with rule_match_no_port_guard rules current_state
    src_ip dst_ip src_port dst_port proto rules_count.toNat 0

end iptables_rules

/-! ## Theorems -/

namespace iptables_rules

theorem proto_mismatch_eq_false (r : ipt_rule_t) (proto : Int) :
    proto_mismatch r proto = false ↔ (r.proto = -1 ∨ r.proto = proto) := by
  unfold proto_mismatch
  by_cases h1 : r.proto = -1 <;> by_cases h2 : r.proto = proto <;> simp [h1, h2]

theorem src_ip_mismatch_eq_false (r : ipt_rule_t) (src_ip : Nat) :
    src_ip_mismatch r src_ip = false ↔
      (r.src_mask = 0 ∨ src_ip &&& r.src_mask = r.src_ip &&& r.src_mask) := by
  unfold src_ip_mismatch apply_mask
  by_cases h1 : r.src_mask = 0 <;>
    by_cases h2 : src_ip &&& r.src_mask = r.src_ip &&& r.src_mask <;> simp [h1, h2]

theorem dst_ip_mismatch_eq_false (r : ipt_rule_t) (dst_ip : Nat) :
    dst_ip_mismatch r dst_ip = false ↔
      (r.dst_mask = 0 ∨ dst_ip &&& r.dst_mask = r.dst_ip &&& r.dst_mask) := by
  unfold dst_ip_mismatch apply_mask
  by_cases h1 : r.dst_mask = 0 <;>
    by_cases h2 : dst_ip &&& r.dst_mask = r.dst_ip &&& r.dst_mask <;> simp [h1, h2]

theorem src_port_mismatch_eq_false (r : ipt_rule_t) (src_port : Nat) :
    src_port_mismatch r src_port = false ↔
      (r.src_port = 0 ∨ (r.src_port ≤ src_port ∧ src_port ≤ r.src_port_high)) := by
  unfold src_port_mismatch
  by_cases h1 : r.src_port = 0
  · simp [h1]
  · simp [h1]

theorem dst_port_mismatch_eq_false (r : ipt_rule_t) (dst_port : Nat) :
    dst_port_mismatch r dst_port = false ↔
      (r.dst_port = 0 ∨ (r.dst_port ≤ dst_port ∧ dst_port ≤ r.dst_port_high)) := by
  unfold dst_port_mismatch
  by_cases h1 : r.dst_port = 0
  · simp [h1]
  · simp [h1]

theorem state_mismatch_eq_false (r : ipt_rule_t) (state : Nat) :
    state_mismatch r state = false ↔ (r.has_state = false ∨ r.state_mask &&& state ≠ 0) := by
  unfold state_mismatch
  cases r.has_state <;> simp

/-- The flag `match` is the conjunction of the six checks not firing. -/
theorem rule_match_eq_true_iff_no_mismatch (r : ipt_rule_t)
    (state src_ip dst_ip src_port dst_port : Nat) (proto : Int) :
    rule_match r state src_ip dst_ip src_port dst_port proto = true ↔
      (proto_mismatch r proto = false ∧ src_ip_mismatch r src_ip = false ∧
        dst_ip_mismatch r dst_ip = false ∧ src_port_mismatch r src_port = false ∧
        dst_port_mismatch r dst_port = false ∧ state_mismatch r state = false) := by
  unfold rule_match
  cases proto_mismatch r proto <;> cases src_ip_mismatch r src_ip <;>
    cases dst_ip_mismatch r dst_ip <;> cases src_port_mismatch r src_port <;>
    cases dst_port_mismatch r dst_port <;> cases state_mismatch r state <;> simp

/-- The flag `match` is set exactly when all six predicates pass. -/
theorem rule_match_eq_true (r : ipt_rule_t) (state src_ip dst_ip src_port dst_port : Nat)
    (proto : Int) :
    rule_match r state src_ip dst_ip src_port dst_port proto = true ↔
      all_predicates_pass r state src_ip dst_ip src_port dst_port proto := by
  rw [rule_match_eq_true_iff_no_mismatch]
  unfold all_predicates_pass
  rw [proto_mismatch_eq_false, src_ip_mismatch_eq_false, dst_ip_mismatch_eq_false,
    src_port_mismatch_eq_false, dst_port_mismatch_eq_false, state_mismatch_eq_false]

theorem rule_match_eq_false (r : ipt_rule_t) (state src_ip dst_ip src_port dst_port : Nat)
    (proto : Int) :
    rule_match r state src_ip dst_ip src_port dst_port proto = false ↔
      ¬ all_predicates_pass r state src_ip dst_ip src_port dst_port proto := by
  rw [← rule_match_eq_true]
  simp

/-- The loop returns the action of a matching rule that no earlier rule of the
scan precedes. -/
theorem check_packet_loop_first (rules : List ipt_rule_t) (cs : Nat → Nat)
    (src_ip dst_ip src_port dst_port : Nat) (proto : Int) (k : Nat) (r : ipt_rule_t)
    (hk : rules[k]? = some r)
    (hm : rule_match r (cs k) src_ip dst_ip src_port dst_port proto = true) :
    ∀ (n i : Nat), i ≤ k → k < i + n →
      (∀ j rj, i ≤ j → j < k → rules[j]? = some rj →
        rule_match rj (cs j) src_ip dst_ip src_port dst_port proto = false) →
      check_packet_loop rules cs src_ip dst_ip src_port dst_port proto n i = some r.action := by
  intro n
  induction n with
  | zero => intro i h1 h2; omega
  | succ n ih =>
    intro i h1 h2 hbefore
    rcases Nat.eq_or_lt_of_le h1 with heq | hlt
    · subst heq
      simp [check_packet_loop, hk, hm]
    · have hklen : k < rules.length := by
        rcases List.getElem?_eq_some.mp hk with ⟨h, _⟩
        exact h
      have hilen : i < rules.length := by omega
      have hi : rules[i]? = some rules[i] := List.getElem?_eq_getElem hilen
      have hno := hbefore i rules[i] (Nat.le_refl i) hlt hi
      have hrec := ih (i + 1) (by omega) (by omega)
        (fun j rj hj1 hj2 hj3 => hbefore j rj (by omega) hj2 hj3)
      simp [check_packet_loop, hi, hno, hrec]

/-- The loop falls through to the default policy when no rule of the scan
matches. -/
theorem check_packet_loop_none (rules : List ipt_rule_t) (cs : Nat → Nat)
    (src_ip dst_ip src_port dst_port : Nat) (proto : Int) :
    ∀ (n i : Nat), i + n ≤ rules.length →
      (∀ j rj, i ≤ j → j < i + n → rules[j]? = some rj →
        rule_match rj (cs j) src_ip dst_ip src_port dst_port proto = false) →
      check_packet_loop rules cs src_ip dst_ip src_port dst_port proto n i =
        some ACTION_DROP := by
  intro n
  induction n with
  | zero => intro i _ _; simp [check_packet_loop]
  | succ n ih =>
    intro i hlen hall
    have hilen : i < rules.length := by omega
    have hi : rules[i]? = some rules[i] := List.getElem?_eq_getElem hilen
    have hno := hall i rules[i] (Nat.le_refl i) (by omega) hi
    have hrec := ih (i + 1) (by omega)
      (fun j rj hj1 hj2 hj3 => hall j rj (by omega) (by omega) hj3)
    simp [check_packet_loop, hi, hno, hrec]

/-- A matching rule at index `k` gives a first matching rule at some index
`j ≤ k`. -/
theorem exists_first_match (rules : List ipt_rule_t) (cs : Nat → Nat)
    (src_ip dst_ip src_port dst_port : Nat) (proto : Int) (k : Nat) (r : ipt_rule_t)
    (hk : rules[k]? = some r)
    (hm : rule_match r (cs k) src_ip dst_ip src_port dst_port proto = true) :
    ∃ j rj, j ≤ k ∧ rules[j]? = some rj ∧
      rule_match rj (cs j) src_ip dst_ip src_port dst_port proto = true ∧
      ∀ i ri, i < j → rules[i]? = some ri →
        rule_match ri (cs i) src_ip dst_ip src_port dst_port proto = false := by
  classical
  have hex : ∃ j, ∃ rj, rules[j]? = some rj ∧
      rule_match rj (cs j) src_ip dst_ip src_port dst_port proto = true := ⟨k, r, hk, hm⟩
  obtain ⟨rj, hj1, hj2⟩ := Nat.find_spec hex
  refine ⟨Nat.find hex, rj, Nat.find_min' hex ⟨r, hk, hm⟩, hj1, hj2, ?_⟩
  intro i ri hi hri
  have hmin := Nat.find_min hex hi
  by_contra hne
  exact hmin ⟨ri, hri, by simpa using hne⟩

end iptables_rules

namespace iptables_rules

/-- Every run of `check_packet` inside the array either falls through to the
default policy, no rule matching, or returns the action of the first matching
rule. -/
theorem check_packet_cases (rules : List ipt_rule_t) (rules_count : Int) (cs : Nat → Nat)
    (src_ip dst_ip src_port dst_port : Nat) (proto : Int)
    (hcap : rules_count ≤ (rules.length : Int)) :
    ((∀ (j : Nat) (rj : ipt_rule_t), (j : Int) < rules_count → rules[j]? = some rj →
        rule_match rj (cs j) src_ip dst_ip src_port dst_port proto = false) ∧
      check_packet rules rules_count cs src_ip dst_ip src_port dst_port proto =
        some ACTION_DROP) ∨
    (∃ (k : Nat) (r : ipt_rule_t), (k : Int) < rules_count ∧ rules[k]? = some r ∧
      rule_match r (cs k) src_ip dst_ip src_port dst_port proto = true ∧
      (∀ j rj, j < k → rules[j]? = some rj →
        rule_match rj (cs j) src_ip dst_ip src_port dst_port proto = false) ∧
      check_packet rules rules_count cs src_ip dst_ip src_port dst_port proto =
        some r.action) := by
  by_cases h : ∃ (k : Nat) (r : ipt_rule_t), (k : Int) < rules_count ∧ rules[k]? = some r ∧
      rule_match r (cs k) src_ip dst_ip src_port dst_port proto = true
  · right
    obtain ⟨k, r, hk, hr, hm⟩ := h
    obtain ⟨j, rj, hjk, hj, hmj, hfirst⟩ :=
      exists_first_match rules cs src_ip dst_ip src_port dst_port proto k r hr hm
    refine ⟨j, rj, by omega, hj, hmj, hfirst, ?_⟩
    unfold check_packet
    exact check_packet_loop_first rules cs src_ip dst_ip src_port dst_port proto j rj hj hmj
      _ 0 (Nat.zero_le j) (by omega) (fun i ri _ h2 h3 => hfirst i ri h2 h3)
  · left
    have hnone : ∀ (j : Nat) (rj : ipt_rule_t), (j : Int) < rules_count → rules[j]? = some rj →
        rule_match rj (cs j) src_ip dst_ip src_port dst_port proto = false := by
      intro j rj hj hrj
      by_contra hne
      exact h ⟨j, rj, hj, hrj, by simpa using hne⟩
    refine ⟨hnone, ?_⟩
    unfold check_packet
    exact check_packet_loop_none rules cs src_ip dst_ip src_port dst_port proto _ 0
      (by omega) (fun j rj _ h2 h3 => hnone j rj (by omega) h3)

end iptables_rules

namespace test_rules

theorem simple_proto_mismatch_eq_false (r : ipt_rule_t) (proto : Int) :
    proto_mismatch r proto = false ↔ (r.proto = -1 ∨ r.proto = proto) := by
  unfold proto_mismatch
  by_cases h1 : r.proto = -1 <;> by_cases h2 : r.proto = proto <;> simp [h1, h2]

theorem simple_src_ip_mismatch_eq_false (r : ipt_rule_t) (src_ip : Nat) :
    src_ip_mismatch r src_ip = false ↔ (r.src_ip = 0 ∨ r.src_ip = src_ip) := by
  unfold src_ip_mismatch
  by_cases h1 : r.src_ip = 0 <;> by_cases h2 : r.src_ip = src_ip <;> simp [h1, h2]

theorem simple_dst_ip_mismatch_eq_false (r : ipt_rule_t) (dst_ip : Nat) :
    dst_ip_mismatch r dst_ip = false ↔ (r.dst_ip = 0 ∨ r.dst_ip = dst_ip) := by
  unfold dst_ip_mismatch
  by_cases h1 : r.dst_ip = 0 <;> by_cases h2 : r.dst_ip = dst_ip <;> simp [h1, h2]

theorem simple_src_port_mismatch_eq_false (r : ipt_rule_t) (src_port : Nat) :
    src_port_mismatch r src_port = false ↔ (r.src_port = 0 ∨ r.src_port = src_port) := by
  unfold src_port_mismatch
  by_cases h1 : r.src_port = 0 <;> by_cases h2 : r.src_port = src_port <;> simp [h1, h2]

theorem simple_dst_port_mismatch_eq_false (r : ipt_rule_t) (dst_port : Nat) :
    dst_port_mismatch r dst_port = false ↔ (r.dst_port = 0 ∨ r.dst_port = dst_port) := by
  unfold dst_port_mismatch
  by_cases h1 : r.dst_port = 0 <;> by_cases h2 : r.dst_port = dst_port <;> simp [h1, h2]

/-- The flag `match` is set exactly when the five field predicates pass. -/
theorem simple_rule_match_eq_true (r : ipt_rule_t) (src_ip dst_ip src_port dst_port : Nat)
    (proto : Int) :
    rule_match r src_ip dst_ip src_port dst_port proto = true ↔
      all_fields_pass r src_ip dst_ip src_port dst_port proto := by
  unfold all_fields_pass
  rw [← simple_proto_mismatch_eq_false, ← simple_src_ip_mismatch_eq_false,
    ← simple_dst_ip_mismatch_eq_false, ← simple_src_port_mismatch_eq_false,
    ← simple_dst_port_mismatch_eq_false]
  unfold rule_match
  cases proto_mismatch r proto <;> cases src_ip_mismatch r src_ip <;>
    cases dst_ip_mismatch r dst_ip <;> cases src_port_mismatch r src_port <;>
    cases dst_port_mismatch r dst_port <;> simp

theorem simple_rule_match_eq_false (r : ipt_rule_t) (src_ip dst_ip src_port dst_port : Nat)
    (proto : Int) :
    rule_match r src_ip dst_ip src_port dst_port proto = false ↔
      ¬ all_fields_pass r src_ip dst_ip src_port dst_port proto := by
  rw [← simple_rule_match_eq_true]
  simp

/-- The loop returns the action of a matching rule that no earlier rule of the
scan precedes. -/
theorem simple_check_packet_loop_first (rules : List ipt_rule_t)
    (src_ip dst_ip src_port dst_port : Nat) (proto : Int) (k : Nat) (r : ipt_rule_t)
    (hk : rules[k]? = some r)
    (hm : rule_match r src_ip dst_ip src_port dst_port proto = true) :
    ∀ (n i : Nat), i ≤ k → k < i + n →
      (∀ j rj, i ≤ j → j < k → rules[j]? = some rj →
        rule_match rj src_ip dst_ip src_port dst_port proto = false) →
      check_packet_loop rules src_ip dst_ip src_port dst_port proto n i = some r.action := by
  intro n
  induction n with
  | zero => intro i h1 h2; omega
  | succ n ih =>
    intro i h1 h2 hbefore
    rcases Nat.eq_or_lt_of_le h1 with heq | hlt
    · subst heq
      simp [check_packet_loop, hk, hm]
    · have hklen : k < rules.length := by
        rcases List.getElem?_eq_some.mp hk with ⟨h, _⟩
        exact h
      have hilen : i < rules.length := by omega
      have hi : rules[i]? = some rules[i] := List.getElem?_eq_getElem hilen
      have hno := hbefore i rules[i] (Nat.le_refl i) hlt hi
      have hrec := ih (i + 1) (by omega) (by omega)
        (fun j rj hj1 hj2 hj3 => hbefore j rj (by omega) hj2 hj3)
      simp [check_packet_loop, hi, hno, hrec]

/-- The loop falls through to the default policy when no rule of the scan
matches. -/
theorem simple_check_packet_loop_none (rules : List ipt_rule_t)
    (src_ip dst_ip src_port dst_port : Nat) (proto : Int) :
    ∀ (n i : Nat), i + n ≤ rules.length →
      (∀ j rj, i ≤ j → j < i + n → rules[j]? = some rj →
        rule_match rj src_ip dst_ip src_port dst_port proto = false) →
      check_packet_loop rules src_ip dst_ip src_port dst_port proto n i =
        some ACTION_DROP := by
  intro n
  induction n with
  | zero => intro i _ _; simp [check_packet_loop]
  | succ n ih =>
    intro i hlen hall
    have hilen : i < rules.length := by omega
    have hi : rules[i]? = some rules[i] := List.getElem?_eq_getElem hilen
    have hno := hall i rules[i] (Nat.le_refl i) (by omega) hi
    have hrec := ih (i + 1) (by omega)
      (fun j rj hj1 hj2 hj3 => hall j rj (by omega) (by omega) hj3)
    simp [check_packet_loop, hi, hno, hrec]

/-- A matching rule at index `k` gives a first matching rule at some index
`j ≤ k`. -/
theorem simple_exists_first_match (rules : List ipt_rule_t)
    (src_ip dst_ip src_port dst_port : Nat) (proto : Int) (k : Nat) (r : ipt_rule_t)
    (hk : rules[k]? = some r)
    (hm : rule_match r src_ip dst_ip src_port dst_port proto = true) :
    ∃ j rj, j ≤ k ∧ rules[j]? = some rj ∧
      rule_match rj src_ip dst_ip src_port dst_port proto = true ∧
      ∀ i ri, i < j → rules[i]? = some ri →
        rule_match ri src_ip dst_ip src_port dst_port proto = false := by
  classical
  have hex : ∃ j, ∃ rj, rules[j]? = some rj ∧
      rule_match rj src_ip dst_ip src_port dst_port proto = true := ⟨k, r, hk, hm⟩
  obtain ⟨rj, hj1, hj2⟩ := Nat.find_spec hex
  refine ⟨Nat.find hex, rj, Nat.find_min' hex ⟨r, hk, hm⟩, hj1, hj2, ?_⟩
  intro i ri hi hri
  have hmin := Nat.find_min hex hi
  by_contra hne
  exact hmin ⟨ri, hri, by simpa using hne⟩

/-- Every run of `check_packet` inside the array either falls through to the
default policy, no rule matching, or returns the action of the first matching
rule. -/
theorem simple_check_packet_cases (rules : List ipt_rule_t) (rules_count : Int)
    (src_ip dst_ip src_port dst_port : Nat) (proto : Int)
    (hcap : rules_count ≤ (rules.length : Int)) :
    ((∀ (j : Nat) (rj : ipt_rule_t), (j : Int) < rules_count → rules[j]? = some rj →
        rule_match rj src_ip dst_ip src_port dst_port proto = false) ∧
      check_packet rules rules_count src_ip dst_ip src_port dst_port proto =
        some ACTION_DROP) ∨
    (∃ (k : Nat) (r : ipt_rule_t), (k : Int) < rules_count ∧ rules[k]? = some r ∧
      rule_match r src_ip dst_ip src_port dst_port proto = true ∧
      (∀ j rj, j < k → rules[j]? = some rj →
        rule_match rj src_ip dst_ip src_port dst_port proto = false) ∧
      check_packet rules rules_count src_ip dst_ip src_port dst_port proto =
        some r.action) := by
  by_cases h : ∃ (k : Nat) (r : ipt_rule_t), (k : Int) < rules_count ∧ rules[k]? = some r ∧
      rule_match r src_ip dst_ip src_port dst_port proto = true
  · right
    obtain ⟨k, r, hk, hr, hm⟩ := h
    obtain ⟨j, rj, hjk, hj, hmj, hfirst⟩ :=
      simple_exists_first_match rules src_ip dst_ip src_port dst_port proto k r hr hm
    refine ⟨j, rj, by omega, hj, hmj, hfirst, ?_⟩
    unfold check_packet
    exact simple_check_packet_loop_first rules src_ip dst_ip src_port dst_port proto j rj hj hmj
      _ 0 (Nat.zero_le j) (by omega) (fun i ri _ h2 h3 => hfirst i ri h2 h3)
  · left
    have hnone : ∀ (j : Nat) (rj : ipt_rule_t), (j : Int) < rules_count → rules[j]? = some rj →
        rule_match rj src_ip dst_ip src_port dst_port proto = false := by
      intro j rj hj hrj
      by_contra hne
      exact h ⟨j, rj, hj, hrj, by simpa using hne⟩
    refine ⟨hnone, ?_⟩
    unfold check_packet
    exact simple_check_packet_loop_none rules src_ip dst_ip src_port dst_port proto _ 0
      (by omega) (fun j rj _ h2 h3 => hnone j rj (by omega) h3)

end test_rules

/-! ## First match wins (C1, C2, C3) -/

namespace iptables_rules

/-- C1. For every array `rules`, every `rules_count` within it and every packet,
the extended `check_packet` returns the action of the lowest-index rule below
`rules_count` for which all six predicates pass (the state predicate of rule
`k` being evaluated on `current_state k`, the connection state in force at that
iteration), and returns `ACTION_DROP` when no rule below `rules_count` passes
all of them. In particular, when rules `k1 < k2` both pass and no rule before
`k1` does, the result is the action of rule `k1`. -/
theorem check_packet_first_match (rules : List ipt_rule_t) (rules_count : Int)
    (current_state : Nat → Nat) (src_ip dst_ip src_port dst_port : Nat) (proto : Int)
    (hcap : rules_count ≤ (rules.length : Int)) :
    (∀ (k : Nat) (r : ipt_rule_t), (k : Int) < rules_count → rules[k]? = some r →
      all_predicates_pass r (current_state k) src_ip dst_ip src_port dst_port proto →
      (∀ (j : Nat) (rj : ipt_rule_t), j < k → rules[j]? = some rj →
        ¬ all_predicates_pass rj (current_state j) src_ip dst_ip src_port dst_port proto) →
      check_packet rules rules_count current_state src_ip dst_ip src_port dst_port proto =
        some r.action) ∧
    ((∀ (j : Nat) (rj : ipt_rule_t), (j : Int) < rules_count → rules[j]? = some rj →
        ¬ all_predicates_pass rj (current_state j) src_ip dst_ip src_port dst_port proto) →
      check_packet rules rules_count current_state src_ip dst_ip src_port dst_port proto =
        some ACTION_DROP) ∧
    (∀ (k1 k2 : Nat) (r1 r2 : ipt_rule_t), k1 < k2 → (k2 : Int) < rules_count →
      rules[k1]? = some r1 → rules[k2]? = some r2 →
      all_predicates_pass r1 (current_state k1) src_ip dst_ip src_port dst_port proto →
      all_predicates_pass r2 (current_state k2) src_ip dst_ip src_port dst_port proto →
      (∀ (j : Nat) (rj : ipt_rule_t), j < k1 → rules[j]? = some rj →
        ¬ all_predicates_pass rj (current_state j) src_ip dst_ip src_port dst_port proto) →
      check_packet rules rules_count current_state src_ip dst_ip src_port dst_port proto =
        some r1.action) := by
  have hfirst : ∀ (k : Nat) (r : ipt_rule_t), (k : Int) < rules_count → rules[k]? = some r →
      all_predicates_pass r (current_state k) src_ip dst_ip src_port dst_port proto →
      (∀ (j : Nat) (rj : ipt_rule_t), j < k → rules[j]? = some rj →
        ¬ all_predicates_pass rj (current_state j) src_ip dst_ip src_port dst_port proto) →
      check_packet rules rules_count current_state src_ip dst_ip src_port dst_port proto =
        some r.action := by
    intro k r hk hr hpass hbefore
    unfold check_packet
    exact check_packet_loop_first rules current_state src_ip dst_ip src_port dst_port proto k r
      hr ((rule_match_eq_true _ _ _ _ _ _ _).mpr hpass) _ 0 (Nat.zero_le k) (by omega)
      (fun j rj _ hj2 hj3 => (rule_match_eq_false _ _ _ _ _ _ _).mpr (hbefore j rj hj2 hj3))
  refine ⟨hfirst, ?_, ?_⟩
  · intro hnone
    unfold check_packet
    exact check_packet_loop_none rules current_state src_ip dst_ip src_port dst_port proto _ 0
      (by omega)
      (fun j rj _ hj2 hj3 => (rule_match_eq_false _ _ _ _ _ _ _).mpr (hnone j rj (by omega) hj3))
  · intro k1 k2 r1 r2 h12 hk2 hr1 _ hp1 _ hbefore
    exact hfirst k1 r1 (by omega) hr1 hp1 hbefore

/-- Witness for C1: in the table `[TCP dport 22 ACCEPT, catch-all DROP]` both rules
match the packet `{TCP, dport=22}`; the verdict is the first rule's ACCEPT. -/
theorem check_packet_first_match_witness :
    (2 : Int) ≤ (([scenario_ssh_rule, catch_all_drop] : List ipt_rule_t).length : Int) ∧
    check_packet [scenario_ssh_rule, catch_all_drop] 2 (fun _ => STATE_NEW)
      3232235876 0 1024 22 6 = some ACTION_ACCEPT :=
  ⟨by decide,
    (check_packet_first_match [scenario_ssh_rule, catch_all_drop] 2 (fun _ => STATE_NEW)
      3232235876 0 1024 22 6 (by decide)).2.2 0 1 scenario_ssh_rule catch_all_drop
      (by decide) (by decide) rfl rfl (by decide) (by decide)
      (fun j _ hj _ => absurd hj (Nat.not_lt_zero j))⟩

end iptables_rules

namespace test_rules

/-- C2. For every array `rules`, every `rules_count` within it and every packet,
the simple `check_packet` returns the action of the first rule below
`rules_count` whose proto is -1 or the packet's and each of whose `src_ip`,
`dst_ip`, `src_port`, `dst_port` is 0 or equal to the packet's field, and
`ACTION_DROP` when there is no such rule. A zero rule field is unconstrained:
two packets that differ only in fields where the rule holds 0 get the same
value of the flag `match`. -/
theorem simple_check_packet_first_match (rules : List ipt_rule_t) (rules_count : Int)
    (src_ip dst_ip src_port dst_port : Nat) (proto : Int)
    (hcap : rules_count ≤ (rules.length : Int)) :
    (∀ (k : Nat) (r : ipt_rule_t), (k : Int) < rules_count → rules[k]? = some r →
      all_fields_pass r src_ip dst_ip src_port dst_port proto →
      (∀ (j : Nat) (rj : ipt_rule_t), j < k → rules[j]? = some rj →
        ¬ all_fields_pass rj src_ip dst_ip src_port dst_port proto) →
      check_packet rules rules_count src_ip dst_ip src_port dst_port proto = some r.action) ∧
    ((∀ (j : Nat) (rj : ipt_rule_t), (j : Int) < rules_count → rules[j]? = some rj →
        ¬ all_fields_pass rj src_ip dst_ip src_port dst_port proto) →
      check_packet rules rules_count src_ip dst_ip src_port dst_port proto =
        some ACTION_DROP) ∧
    (∀ (r : ipt_rule_t) (a b c d a2 b2 c2 d2 : Nat),
      (r.src_ip = 0 ∨ a = a2) → (r.dst_ip = 0 ∨ b = b2) →
      (r.src_port = 0 ∨ c = c2) → (r.dst_port = 0 ∨ d = d2) →
      rule_match r a b c d proto = rule_match r a2 b2 c2 d2 proto) := by
  refine ⟨?_, ?_, ?_⟩
  · intro k r hk hr hpass hbefore
    unfold check_packet
    exact simple_check_packet_loop_first rules src_ip dst_ip src_port dst_port proto k r
      hr ((simple_rule_match_eq_true _ _ _ _ _ _).mpr hpass) _ 0 (Nat.zero_le k) (by omega)
      (fun j rj _ hj2 hj3 => (simple_rule_match_eq_false _ _ _ _ _ _).mpr (hbefore j rj hj2 hj3))
  · intro hnone
    unfold check_packet
    exact simple_check_packet_loop_none rules src_ip dst_ip src_port dst_port proto _ 0
      (by omega)
      (fun j rj _ hj2 hj3 =>
        (simple_rule_match_eq_false _ _ _ _ _ _).mpr (hnone j rj (by omega) hj3))
  · intro r a b c d a2 b2 c2 d2 h1 h2 h3 h4
    rw [Bool.eq_iff_iff, simple_rule_match_eq_true, simple_rule_match_eq_true]
    unfold all_fields_pass
    constructor
    · rintro ⟨p0, p1, p2, p3, p4⟩
      refine ⟨p0, ?_, ?_, ?_, ?_⟩
      · rcases h1 with h | h
        · exact Or.inl h
        · exact h ▸ p1
      · rcases h2 with h | h
        · exact Or.inl h
        · exact h ▸ p2
      · rcases h3 with h | h
        · exact Or.inl h
        · exact h ▸ p3
      · rcases h4 with h | h
        · exact Or.inl h
        · exact h ▸ p4
    · rintro ⟨p0, p1, p2, p3, p4⟩
      refine ⟨p0, ?_, ?_, ?_, ?_⟩
      · rcases h1 with h | h
        · exact Or.inl h
        · exact h ▸ p1
      · rcases h2 with h | h
        · exact Or.inl h
        · exact h ▸ p2
      · rcases h3 with h | h
        · exact Or.inl h
        · exact h ▸ p3
      · rcases h4 with h | h
        · exact Or.inl h
        · exact h ▸ p4

/-- Witness for C2: in the table `[TCP dport 80 ACCEPT, catch-all DROP]` the
default test packet of `main` (`{TCP, dport=80}`, nonzero source address and
port) is decided by the first rule, whose `src_ip`, `dst_ip` and `src_port` are 0. -/
theorem simple_check_packet_first_match_witness :
    (2 : Int) ≤ (([simple_http_rule, simple_catch_all_drop] : List ipt_rule_t).length : Int) ∧
    check_packet [simple_http_rule, simple_catch_all_drop] 2 3232235876 0 1024 80 6 =
      some ACTION_ACCEPT :=
  ⟨by decide,
    (simple_check_packet_first_match [simple_http_rule, simple_catch_all_drop] 2
      3232235876 0 1024 80 6 (by decide)).1 0 simple_http_rule (by decide) rfl (by decide)
      (fun j _ hj _ => absurd hj (Nat.not_lt_zero j))⟩

end test_rules

/-- C3. In both variants, when no rule below `rules_count` matches the packet,
`check_packet` returns the default action `ACTION_DROP`, which is 0. This
covers the empty table (`rules_count = 0`) and a one-rule table whose only rule
does not match. -/
theorem check_packet_default_drop :
    (∀ (rules : List iptables_rules.ipt_rule_t) (rules_count : Int) (current_state : Nat → Nat)
        (src_ip dst_ip src_port dst_port : Nat) (proto : Int),
      rules_count ≤ (rules.length : Int) →
      (∀ (j : Nat) (rj : iptables_rules.ipt_rule_t), (j : Int) < rules_count →
        rules[j]? = some rj →
        ¬ iptables_rules.all_predicates_pass rj (current_state j)
            src_ip dst_ip src_port dst_port proto) →
      iptables_rules.check_packet rules rules_count current_state
        src_ip dst_ip src_port dst_port proto = some ACTION_DROP) ∧
    (∀ (rules : List test_rules.ipt_rule_t) (rules_count : Int)
        (src_ip dst_ip src_port dst_port : Nat) (proto : Int),
      rules_count ≤ (rules.length : Int) →
      (∀ (j : Nat) (rj : test_rules.ipt_rule_t), (j : Int) < rules_count →
        rules[j]? = some rj →
        ¬ test_rules.all_fields_pass rj src_ip dst_ip src_port dst_port proto) →
      test_rules.check_packet rules rules_count src_ip dst_ip src_port dst_port proto =
        some ACTION_DROP) ∧
    (∀ (rules : List iptables_rules.ipt_rule_t) (current_state : Nat → Nat)
        (src_ip dst_ip src_port dst_port : Nat) (proto : Int),
      iptables_rules.check_packet rules 0 current_state
        src_ip dst_ip src_port dst_port proto = some ACTION_DROP) ∧
    (∀ (rules : List test_rules.ipt_rule_t) (src_ip dst_ip src_port dst_port : Nat)
        (proto : Int),
      test_rules.check_packet rules 0 src_ip dst_ip src_port dst_port proto =
        some ACTION_DROP) ∧
    (∀ (rules : List iptables_rules.ipt_rule_t) (r : iptables_rules.ipt_rule_t)
        (current_state : Nat → Nat) (src_ip dst_ip src_port dst_port : Nat) (proto : Int),
      rules[0]? = some r →
      ¬ iptables_rules.all_predicates_pass r (current_state 0)
          src_ip dst_ip src_port dst_port proto →
      iptables_rules.check_packet rules 1 current_state
        src_ip dst_ip src_port dst_port proto = some ACTION_DROP) ∧
    (∀ (rules : List test_rules.ipt_rule_t) (r : test_rules.ipt_rule_t)
        (src_ip dst_ip src_port dst_port : Nat) (proto : Int),
      rules[0]? = some r →
      ¬ test_rules.all_fields_pass r src_ip dst_ip src_port dst_port proto →
      test_rules.check_packet rules 1 src_ip dst_ip src_port dst_port proto =
        some ACTION_DROP) ∧
    ACTION_DROP = 0 := by
  have hE : ∀ (rules : List iptables_rules.ipt_rule_t) (rules_count : Int)
      (current_state : Nat → Nat) (src_ip dst_ip src_port dst_port : Nat) (proto : Int),
      rules_count ≤ (rules.length : Int) →
      (∀ (j : Nat) (rj : iptables_rules.ipt_rule_t), (j : Int) < rules_count →
        rules[j]? = some rj →
        ¬ iptables_rules.all_predicates_pass rj (current_state j)
            src_ip dst_ip src_port dst_port proto) →
      iptables_rules.check_packet rules rules_count current_state
        src_ip dst_ip src_port dst_port proto = some ACTION_DROP := by
    intro rules rules_count cs a b c d p hcap hnone
    unfold iptables_rules.check_packet
    exact iptables_rules.check_packet_loop_none rules cs a b c d p _ 0 (by omega)
      (fun j rj _ hj2 hj3 =>
        (iptables_rules.rule_match_eq_false _ _ _ _ _ _ _).mpr (hnone j rj (by omega) hj3))
  have hS : ∀ (rules : List test_rules.ipt_rule_t) (rules_count : Int)
      (src_ip dst_ip src_port dst_port : Nat) (proto : Int),
      rules_count ≤ (rules.length : Int) →
      (∀ (j : Nat) (rj : test_rules.ipt_rule_t), (j : Int) < rules_count →
        rules[j]? = some rj →
        ¬ test_rules.all_fields_pass rj src_ip dst_ip src_port dst_port proto) →
      test_rules.check_packet rules rules_count src_ip dst_ip src_port dst_port proto =
        some ACTION_DROP := by
    intro rules rules_count a b c d p hcap hnone
    unfold test_rules.check_packet
    exact test_rules.simple_check_packet_loop_none rules a b c d p _ 0 (by omega)
      (fun j rj _ hj2 hj3 =>
        (test_rules.simple_rule_match_eq_false _ _ _ _ _ _).mpr (hnone j rj (by omega) hj3))
  refine ⟨hE, hS, ?_, ?_, ?_, ?_, rfl⟩
  · intro rules cs a b c d p
    rfl
  · intro rules a b c d p
    rfl
  · intro rules r cs a b c d p hr hno
    have hlen : 0 < rules.length := (List.getElem?_eq_some.mp hr).1
    refine hE rules 1 cs a b c d p (by omega) ?_
    intro j rj hj hrj
    have hj0 : j = 0 := by omega
    subst hj0
    rw [hr] at hrj
    cases hrj
    exact hno
  · intro rules r a b c d p hr hno
    have hlen : 0 < rules.length := (List.getElem?_eq_some.mp hr).1
    refine hS rules 1 a b c d p (by omega) ?_
    intro j rj hj hrj
    have hj0 : j = 0 := by omega
    subst hj0
    rw [hr] at hrj
    cases hrj
    exact hno

/-- Witness for C3: the one-rule table `[TCP dport 22 ACCEPT]` does not match the
UDP packet `{UDP, dport=53}`; the verdict is the default DROP. -/
theorem check_packet_default_drop_witness :
    iptables_rules.check_packet [iptables_rules.scenario_ssh_rule] 1 (fun _ => STATE_NEW)
      3232235876 0 1024 53 17 = some 0 :=
  check_packet_default_drop.2.2.2.2.1 [iptables_rules.scenario_ssh_rule]
    iptables_rules.scenario_ssh_rule (fun _ => STATE_NEW) 3232235876 0 1024 53 17 rfl
    (by decide)

/-! ## The six predicates (C4, C5, C6, C7) -/

/-- C4. In the extended `check_packet` the source (resp. destination) address
check of a rule passes, that is the `if` of lines 159-160 (resp. 165-166) does
not clear `match`, if and only if the rule's mask is 0 or
`(packet_address & mask) == (rule_address & mask)`; a rule whose mask is 0
passes for every packet address, whatever its own address; and once the other
five checks pass, the address check alone decides the flag `match`. -/
theorem address_predicate_iff :
    (∀ (r : iptables_rules.ipt_rule_t) (src_ip : Nat),
      iptables_rules.src_ip_mismatch r src_ip = false ↔
        (r.src_mask = 0 ∨ src_ip &&& r.src_mask = r.src_ip &&& r.src_mask)) ∧
    (∀ (r : iptables_rules.ipt_rule_t) (dst_ip : Nat),
      iptables_rules.dst_ip_mismatch r dst_ip = false ↔
        (r.dst_mask = 0 ∨ dst_ip &&& r.dst_mask = r.dst_ip &&& r.dst_mask)) ∧
    (∀ (r : iptables_rules.ipt_rule_t) (src_ip : Nat),
      r.src_mask = 0 → iptables_rules.src_ip_mismatch r src_ip = false) ∧
    (∀ (r : iptables_rules.ipt_rule_t) (dst_ip : Nat),
      r.dst_mask = 0 → iptables_rules.dst_ip_mismatch r dst_ip = false) ∧
    (∀ (r : iptables_rules.ipt_rule_t) (state src_ip dst_ip src_port dst_port : Nat)
        (proto : Int),
      iptables_rules.proto_mismatch r proto = false →
      iptables_rules.dst_ip_mismatch r dst_ip = false →
      iptables_rules.src_port_mismatch r src_port = false →
      iptables_rules.dst_port_mismatch r dst_port = false →
      iptables_rules.state_mismatch r state = false →
      (iptables_rules.rule_match r state src_ip dst_ip src_port dst_port proto = true ↔
        (r.src_mask = 0 ∨ src_ip &&& r.src_mask = r.src_ip &&& r.src_mask))) ∧
    (∀ (r : iptables_rules.ipt_rule_t) (state src_ip dst_ip src_port dst_port : Nat)
        (proto : Int),
      iptables_rules.proto_mismatch r proto = false →
      iptables_rules.src_ip_mismatch r src_ip = false →
      iptables_rules.src_port_mismatch r src_port = false →
      iptables_rules.dst_port_mismatch r dst_port = false →
      iptables_rules.state_mismatch r state = false →
      (iptables_rules.rule_match r state src_ip dst_ip src_port dst_port proto = true ↔
        (r.dst_mask = 0 ∨ dst_ip &&& r.dst_mask = r.dst_ip &&& r.dst_mask))) := by
  refine ⟨iptables_rules.src_ip_mismatch_eq_false, iptables_rules.dst_ip_mismatch_eq_false,
    ?_, ?_, ?_, ?_⟩
  · intro r ip h
    exact (iptables_rules.src_ip_mismatch_eq_false r ip).mpr (Or.inl h)
  · intro r ip h
    exact (iptables_rules.dst_ip_mismatch_eq_false r ip).mpr (Or.inl h)
  · intro r s a b c d p h1 h2 h3 h4 h5
    rw [iptables_rules.rule_match_eq_true_iff_no_mismatch,
      ← iptables_rules.src_ip_mismatch_eq_false]
    simp [h1, h2, h3, h4, h5]
  · intro r s a b c d p h1 h2 h3 h4 h5
    rw [iptables_rules.rule_match_eq_true_iff_no_mismatch,
      ← iptables_rules.dst_ip_mismatch_eq_false]
    simp [h1, h2, h3, h4, h5]

/-- Witness for C4: the catch-all rule has `src_mask = 0` and passes the source
address check for the address 192.168.1.100. -/
theorem address_predicate_iff_witness :
    iptables_rules.catch_all_drop.src_mask = 0 ∧
    iptables_rules.src_ip_mismatch iptables_rules.catch_all_drop 3232235876 = false :=
  ⟨rfl, address_predicate_iff.2.2.1 iptables_rules.catch_all_drop 3232235876 rfl⟩

/-- C5. In the extended `check_packet` the source (resp. destination) port check
of a rule passes, that is the `if` of lines 171-172 (resp. 177-178) does not
clear `match`, if and only if the rule's low bound is 0 or
`low <= packet_port <= high`, both bounds inclusive; a rule whose low bound is 0
passes for every port, whatever its high bound; and once the other five checks
pass, the port check alone decides the flag `match`. -/
theorem port_predicate_iff :
    (∀ (r : iptables_rules.ipt_rule_t) (src_port : Nat),
      iptables_rules.src_port_mismatch r src_port = false ↔
        (r.src_port = 0 ∨ (r.src_port ≤ src_port ∧ src_port ≤ r.src_port_high))) ∧
    (∀ (r : iptables_rules.ipt_rule_t) (dst_port : Nat),
      iptables_rules.dst_port_mismatch r dst_port = false ↔
        (r.dst_port = 0 ∨ (r.dst_port ≤ dst_port ∧ dst_port ≤ r.dst_port_high))) ∧
    (∀ (r : iptables_rules.ipt_rule_t) (src_port : Nat),
      r.src_port = 0 → iptables_rules.src_port_mismatch r src_port = false) ∧
    (∀ (r : iptables_rules.ipt_rule_t) (dst_port : Nat),
      r.dst_port = 0 → iptables_rules.dst_port_mismatch r dst_port = false) ∧
    (∀ (r : iptables_rules.ipt_rule_t) (state src_ip dst_ip src_port dst_port : Nat)
        (proto : Int),
      iptables_rules.proto_mismatch r proto = false →
      iptables_rules.src_ip_mismatch r src_ip = false →
      iptables_rules.dst_ip_mismatch r dst_ip = false →
      iptables_rules.dst_port_mismatch r dst_port = false →
      iptables_rules.state_mismatch r state = false →
      (iptables_rules.rule_match r state src_ip dst_ip src_port dst_port proto = true ↔
        (r.src_port = 0 ∨ (r.src_port ≤ src_port ∧ src_port ≤ r.src_port_high)))) ∧
    (∀ (r : iptables_rules.ipt_rule_t) (state src_ip dst_ip src_port dst_port : Nat)
        (proto : Int),
      iptables_rules.proto_mismatch r proto = false →
      iptables_rules.src_ip_mismatch r src_ip = false →
      iptables_rules.dst_ip_mismatch r dst_ip = false →
      iptables_rules.src_port_mismatch r src_port = false →
      iptables_rules.state_mismatch r state = false →
      (iptables_rules.rule_match r state src_ip dst_ip src_port dst_port proto = true ↔
        (r.dst_port = 0 ∨ (r.dst_port ≤ dst_port ∧ dst_port ≤ r.dst_port_high)))) := by
  refine ⟨iptables_rules.src_port_mismatch_eq_false, iptables_rules.dst_port_mismatch_eq_false,
    ?_, ?_, ?_, ?_⟩
  · intro r port h
    exact (iptables_rules.src_port_mismatch_eq_false r port).mpr (Or.inl h)
  · intro r port h
    exact (iptables_rules.dst_port_mismatch_eq_false r port).mpr (Or.inl h)
  · intro r s a b c d p h1 h2 h3 h4 h5
    rw [iptables_rules.rule_match_eq_true_iff_no_mismatch,
      ← iptables_rules.src_port_mismatch_eq_false]
    simp [h1, h2, h3, h4, h5]
  · intro r s a b c d p h1 h2 h3 h4 h5
    rw [iptables_rules.rule_match_eq_true_iff_no_mismatch,
      ← iptables_rules.dst_port_mismatch_eq_false]
    simp [h1, h2, h3, h4, h5]

/-- Witness for C5: the rule `{TCP, dport=[22,22]}` has source-port low bound 0 and
passes the source port check for port 1024. -/
theorem port_predicate_iff_witness :
    iptables_rules.scenario_ssh_rule.src_port = 0 ∧
    iptables_rules.src_port_mismatch iptables_rules.scenario_ssh_rule 1024 = false :=
  ⟨rfl, port_predicate_iff.2.2.1 iptables_rules.scenario_ssh_rule 1024 rfl⟩

/-- C6. In both variants the protocol check of a rule passes, that is the `if`
of line 154 (resp. 155 of `test_rules.c`) does not clear `match`, if and only
if the rule's proto is -1 or equals the packet's proto. A rule with proto -1
passes for every packet protocol; a rule with proto 0 is no wildcard and passes
only for packets whose proto is 0. -/
theorem proto_predicate_iff :
    (∀ (r : iptables_rules.ipt_rule_t) (proto : Int),
      iptables_rules.proto_mismatch r proto = false ↔ (r.proto = -1 ∨ r.proto = proto)) ∧
    (∀ (r : test_rules.ipt_rule_t) (proto : Int),
      test_rules.proto_mismatch r proto = false ↔ (r.proto = -1 ∨ r.proto = proto)) ∧
    (∀ (r : iptables_rules.ipt_rule_t) (proto : Int),
      r.proto = -1 → iptables_rules.proto_mismatch r proto = false) ∧
    (∀ (r : test_rules.ipt_rule_t) (proto : Int),
      r.proto = -1 → test_rules.proto_mismatch r proto = false) ∧
    (∀ (r : iptables_rules.ipt_rule_t) (proto : Int),
      r.proto = 0 → (iptables_rules.proto_mismatch r proto = false ↔ proto = 0)) ∧
    (∀ (r : test_rules.ipt_rule_t) (proto : Int),
      r.proto = 0 → (test_rules.proto_mismatch r proto = false ↔ proto = 0)) ∧
    (∀ (r : iptables_rules.ipt_rule_t) (state src_ip dst_ip src_port dst_port : Nat)
        (proto : Int),
      iptables_rules.proto_mismatch r proto = true →
      iptables_rules.rule_match r state src_ip dst_ip src_port dst_port proto = false) ∧
    (∀ (r : test_rules.ipt_rule_t) (src_ip dst_ip src_port dst_port : Nat) (proto : Int),
      test_rules.proto_mismatch r proto = true →
      test_rules.rule_match r src_ip dst_ip src_port dst_port proto = false) := by
  refine ⟨iptables_rules.proto_mismatch_eq_false, test_rules.simple_proto_mismatch_eq_false,
    ?_, ?_, ?_, ?_, ?_, ?_⟩
  · intro r p h
    exact (iptables_rules.proto_mismatch_eq_false r p).mpr (Or.inl h)
  · intro r p h
    exact (test_rules.simple_proto_mismatch_eq_false r p).mpr (Or.inl h)
  · intro r p h
    rw [iptables_rules.proto_mismatch_eq_false, h]
    constructor
    · rintro (h0 | h0)
      · exact absurd h0 (by decide)
      · exact h0.symm
    · intro h0
      exact Or.inr h0.symm
  · intro r p h
    rw [test_rules.simple_proto_mismatch_eq_false, h]
    constructor
    · rintro (h0 | h0)
      · exact absurd h0 (by decide)
      · exact h0.symm
    · intro h0
      exact Or.inr h0.symm
  · intro r s a b c d p h
    simp [iptables_rules.rule_match, h]
  · intro r a b c d p h
    simp [test_rules.rule_match, h]

/-- Witness for C6: the catch-all rules of both tables have proto -1 and pass the
protocol check for an ICMP packet (proto 1). -/
theorem proto_predicate_iff_witness :
    (iptables_rules.catch_all_drop.proto = -1 ∧
      iptables_rules.proto_mismatch iptables_rules.catch_all_drop 1 = false) ∧
    (test_rules.simple_catch_all_drop.proto = -1 ∧
      test_rules.proto_mismatch test_rules.simple_catch_all_drop 1 = false) :=
  ⟨⟨rfl, proto_predicate_iff.2.2.1 iptables_rules.catch_all_drop 1 rfl⟩,
    ⟨rfl, proto_predicate_iff.2.2.2.1 test_rules.simple_catch_all_drop 1 rfl⟩⟩

/-- C7. In the extended `check_packet`, for a rule with `has_state` set and a
connection state `s` among NEW=1, ESTABLISHED=2, RELATED=4, INVALID=8, the state
check passes (lines 183-198 do not clear `match`) if and only if
`(state_mask & s) != 0`. A rule with `state_mask = ESTABLISHED|RELATED` passes
for ESTABLISHED and for RELATED and fails for NEW and for INVALID. A rule with
`has_state` clear passes for every state, whatever its `state_mask`. Once the
other five checks pass, the state check alone decides the flag `match`. -/
theorem state_predicate_iff :
    (∀ (r : iptables_rules.ipt_rule_t) (s : Nat), r.has_state = true →
      (s = STATE_NEW ∨ s = STATE_ESTABLISHED ∨ s = STATE_RELATED ∨ s = STATE_INVALID) →
      (iptables_rules.state_mismatch r s = false ↔ r.state_mask &&& s ≠ 0)) ∧
    (∀ (r : iptables_rules.ipt_rule_t), r.has_state = true →
      r.state_mask = STATE_ESTABLISHED ||| STATE_RELATED →
      iptables_rules.state_mismatch r STATE_ESTABLISHED = false ∧
      iptables_rules.state_mismatch r STATE_RELATED = false ∧
      iptables_rules.state_mismatch r STATE_NEW = true ∧
      iptables_rules.state_mismatch r STATE_INVALID = true) ∧
    (∀ (r : iptables_rules.ipt_rule_t) (s : Nat), r.has_state = false →
      iptables_rules.state_mismatch r s = false) ∧
    (∀ (r : iptables_rules.ipt_rule_t) (s src_ip dst_ip src_port dst_port : Nat)
        (proto : Int),
      iptables_rules.proto_mismatch r proto = false →
      iptables_rules.src_ip_mismatch r src_ip = false →
      iptables_rules.dst_ip_mismatch r dst_ip = false →
      iptables_rules.src_port_mismatch r src_port = false →
      iptables_rules.dst_port_mismatch r dst_port = false →
      (iptables_rules.rule_match r s src_ip dst_ip src_port dst_port proto = true ↔
        (r.has_state = false ∨ r.state_mask &&& s ≠ 0))) := by
  refine ⟨?_, ?_, ?_, ?_⟩
  · intro r s h _
    rw [iptables_rules.state_mismatch_eq_false]
    simp [h]
  · intro r h hm
    simp [iptables_rules.state_mismatch, h, hm, STATE_ESTABLISHED, STATE_RELATED, STATE_NEW,
      STATE_INVALID]
    decide
  · intro r s h
    exact (iptables_rules.state_mismatch_eq_false r s).mpr (Or.inl h)
  · intro r s a b c d p h1 h2 h3 h4 h5
    rw [iptables_rules.rule_match_eq_true_iff_no_mismatch,
      ← iptables_rules.state_mismatch_eq_false]
    simp [h1, h2, h3, h4, h5]

/-- Witness for C7: the rule of scenario 4 (`has_state`, mask ESTABLISHED|RELATED)
passes the state check for ESTABLISHED and fails it for NEW. -/
theorem state_predicate_iff_witness :
    (iptables_rules.scenario_state_rule.has_state = true ∧
      iptables_rules.scenario_state_rule.state_mask = STATE_ESTABLISHED ||| STATE_RELATED) ∧
    iptables_rules.state_mismatch iptables_rules.scenario_state_rule STATE_ESTABLISHED = false ∧
    iptables_rules.state_mismatch iptables_rules.scenario_state_rule STATE_NEW = true :=
  ⟨⟨rfl, rfl⟩,
    (state_predicate_iff.2.1 iptables_rules.scenario_state_rule rfl rfl).1,
    (state_predicate_iff.2.1 iptables_rules.scenario_state_rule rfl rfl).2.2.1⟩

/-! ## Universal rule, verdict range and two-rule tables (C8, C9, C10) -/

namespace iptables_rules

/-- A universal rule sets the flag `match` for every packet and state. -/
theorem universal_rule_match (u : ipt_rule_t) (hu : universal_rule u)
    (state src_ip dst_ip src_port dst_port : Nat) (proto : Int) :
    rule_match u state src_ip dst_ip src_port dst_port proto = true := by
  obtain ⟨h1, h2, h3, h4, h5, h6⟩ := hu
  rw [rule_match_eq_true]
  exact ⟨Or.inl h1, Or.inl h2, Or.inl h3, Or.inl h4, Or.inl h5, Or.inl h6⟩

/-- C8. A rule with proto -1, both masks 0, both port-low values 0 and `has_state`
clear matches every packet. For every table with such a rule at an index
`k < rules_count` and every packet, `check_packet` returns the same verdict as
on the table truncated to its first `k+1` rules (the same array with
`rules_count = k+1`, or the array cut after entry `k`), and that verdict is the
action of a matching rule at an index `j ≤ k`: the rules after the universal
rule and the end-of-scan default never decide. -/
theorem universal_rule_truncation :
    (∀ (u : ipt_rule_t) (state src_ip dst_ip src_port dst_port : Nat) (proto : Int),
      u.proto = -1 → u.src_mask = 0 → u.dst_mask = 0 → u.src_port = 0 → u.dst_port = 0 →
      u.has_state = false →
      rule_match u state src_ip dst_ip src_port dst_port proto = true) ∧
    (∀ (rules : List ipt_rule_t) (rules_count : Int) (current_state : Nat → Nat)
        (src_ip dst_ip src_port dst_port : Nat) (proto : Int) (k : Nat) (u : ipt_rule_t),
      (k : Int) < rules_count → rules[k]? = some u → universal_rule u →
      check_packet rules rules_count current_state src_ip dst_ip src_port dst_port proto =
        check_packet rules ((k : Int) + 1) current_state
          src_ip dst_ip src_port dst_port proto ∧
      check_packet rules rules_count current_state src_ip dst_ip src_port dst_port proto =
        check_packet (rules.take (k + 1)) ((k : Int) + 1) current_state
          src_ip dst_ip src_port dst_port proto ∧
      ∃ (j : Nat) (rj : ipt_rule_t), j ≤ k ∧ rules[j]? = some rj ∧
        all_predicates_pass rj (current_state j) src_ip dst_ip src_port dst_port proto ∧
        check_packet rules rules_count current_state src_ip dst_ip src_port dst_port proto =
          some rj.action) := by
  refine ⟨?_, ?_⟩
  · intro u s a b c d p h1 h2 h3 h4 h5 h6
    exact universal_rule_match u ⟨h1, h2, h3, h4, h5, h6⟩ s a b c d p
  · intro rules rules_count cs a b c d p k u hk hu huniv
    have hm := universal_rule_match u huniv (cs k) a b c d p
    obtain ⟨j, rj, hjk, hj, hmj, hfirst⟩ := exists_first_match rules cs a b c d p k u hu hm
    have hfull : check_packet rules rules_count cs a b c d p = some rj.action := by
      unfold check_packet
      exact check_packet_loop_first rules cs a b c d p j rj hj hmj _ 0 (Nat.zero_le j)
        (by omega) (fun i ri _ h2 h3 => hfirst i ri h2 h3)
    have hcut : check_packet rules ((k : Int) + 1) cs a b c d p = some rj.action := by
      unfold check_packet
      exact check_packet_loop_first rules cs a b c d p j rj hj hmj _ 0 (Nat.zero_le j)
        (by omega) (fun i ri _ h2 h3 => hfirst i ri h2 h3)
    have htake : check_packet (rules.take (k + 1)) ((k : Int) + 1) cs a b c d p =
        some rj.action := by
      unfold check_packet
      refine check_packet_loop_first (rules.take (k + 1)) cs a b c d p j rj ?_ hmj _ 0
        (Nat.zero_le j) (by omega) ?_
      · rw [List.getElem?_take_of_lt (by omega)]
        exact hj
      · intro i ri _ h2 h3
        rw [List.getElem?_take_of_lt (by omega)] at h3
        exact hfirst i ri h2 h3
    exact ⟨hfull.trans hcut.symm, hfull.trans htake.symm, j, rj, hjk, hj,
      (rule_match_eq_true _ _ _ _ _ _ _).mp hmj, hfull⟩

/-- Witness for C8: in the table `[TCP dport 22 ACCEPT, catch-all DROP, TCP dport 22
ACCEPT]` the catch-all at index 1 is universal; a packet `{UDP, dport=53}` gets
the verdict of the table cut after index 1. -/
theorem universal_rule_truncation_witness :
    ((1 : Nat) : Int) < 3 ∧
    ([scenario_ssh_rule, catch_all_drop, scenario_ssh_rule] : List ipt_rule_t)[1]? =
      some catch_all_drop ∧
    universal_rule catch_all_drop ∧
    check_packet [scenario_ssh_rule, catch_all_drop, scenario_ssh_rule] 3 (fun _ => STATE_NEW)
        3232235876 0 1024 53 17 =
      check_packet [scenario_ssh_rule, catch_all_drop, scenario_ssh_rule] ((1 : Nat) + 1)
        (fun _ => STATE_NEW) 3232235876 0 1024 53 17 :=
  ⟨by decide, rfl, by decide,
    (universal_rule_truncation.2 [scenario_ssh_rule, catch_all_drop, scenario_ssh_rule] 3
      (fun _ => STATE_NEW) 3232235876 0 1024 53 17 1 catch_all_drop (by decide) rfl
      (by decide)).1⟩

end iptables_rules

set_option maxRecDepth 4000 in
/-- Every rule written by `init_rules` of `iptables_rules.c` has action 0 or 1,
and `rules_count` stays within the array. -/
theorem init_rules_actions :
    (iptables_rules.init_rules iptables_rules.globals_start).rules_count ≤
      (((iptables_rules.init_rules iptables_rules.globals_start).rules).length : Int) ∧
    ∀ r ∈ (iptables_rules.init_rules iptables_rules.globals_start).rules.take
        (iptables_rules.init_rules iptables_rules.globals_start).rules_count.toNat,
      r.action = ACTION_DROP ∨ r.action = ACTION_ACCEPT := by
  decide

set_option maxRecDepth 4000 in
/-- Every rule written by `init_rules` of `test_rules.c` has action 0 or 1, and
`rules_count` stays within the array. -/
theorem simple_init_rules_actions :
    (test_rules.init_rules test_rules.globals_start).rules_count ≤
      (((test_rules.init_rules test_rules.globals_start).rules).length : Int) ∧
    ∀ r ∈ (test_rules.init_rules test_rules.globals_start).rules.take
        (test_rules.init_rules test_rules.globals_start).rules_count.toNat,
      r.action = ACTION_DROP ∨ r.action = ACTION_ACCEPT := by
  decide

/-- An entry read below index `n` belongs to the first `n` entries. -/
theorem mem_take_of_getElem? {α : Type} (l : List α) (n j : Nat) (a : α) (hj : j < n)
    (h : l[j]? = some a) : a ∈ l.take n := by
  apply List.getElem?_mem
  rw [List.getElem?_take_of_lt hj]
  exact h

/-- C9. For every packet, `check_packet` on the table built by `init_rules`
returns `ACTION_ACCEPT` (1) or `ACTION_DROP` (0), in `iptables_rules.c` and in
`test_rules.c`, so that `main` with its two `klee_assert`s always returns one of
the two; more generally the result is 0 or 1 for every table, with `rules_count`
within the array, whose rules below `rules_count` all have action 0 or 1. -/
theorem check_packet_result_binary :
    (∀ (current_state : Nat → Nat) (src_ip dst_ip src_port dst_port : Nat) (proto : Int),
      iptables_rules.check_packet (iptables_rules.init_rules iptables_rules.globals_start).rules
          (iptables_rules.init_rules iptables_rules.globals_start).rules_count current_state
          src_ip dst_ip src_port dst_port proto = some ACTION_ACCEPT ∨
      iptables_rules.check_packet (iptables_rules.init_rules iptables_rules.globals_start).rules
          (iptables_rules.init_rules iptables_rules.globals_start).rules_count current_state
          src_ip dst_ip src_port dst_port proto = some ACTION_DROP) ∧
    (∀ (src_ip dst_ip src_port dst_port : Nat) (proto : Int),
      test_rules.check_packet (test_rules.init_rules test_rules.globals_start).rules
          (test_rules.init_rules test_rules.globals_start).rules_count
          src_ip dst_ip src_port dst_port proto = some ACTION_ACCEPT ∨
      test_rules.check_packet (test_rules.init_rules test_rules.globals_start).rules
          (test_rules.init_rules test_rules.globals_start).rules_count
          src_ip dst_ip src_port dst_port proto = some ACTION_DROP) ∧
    (∀ (current_state : Nat → Nat) (src_ip dst_ip src_port dst_port : Nat) (proto : Int),
      iptables_rules.main_klee current_state src_ip dst_ip src_port dst_port proto =
          some ACTION_ACCEPT ∨
      iptables_rules.main_klee current_state src_ip dst_ip src_port dst_port proto =
          some ACTION_DROP) ∧
    (∀ (src_ip dst_ip src_port dst_port : Nat) (proto : Int),
      test_rules.main_klee src_ip dst_ip src_port dst_port proto = some ACTION_ACCEPT ∨
      test_rules.main_klee src_ip dst_ip src_port dst_port proto = some ACTION_DROP) ∧
    (∀ (rules : List iptables_rules.ipt_rule_t) (rules_count : Int) (current_state : Nat → Nat)
        (src_ip dst_ip src_port dst_port : Nat) (proto : Int),
      rules_count ≤ (rules.length : Int) →
      (∀ (j : Nat) (rj : iptables_rules.ipt_rule_t), (j : Int) < rules_count →
        rules[j]? = some rj → rj.action = 0 ∨ rj.action = 1) →
      iptables_rules.check_packet rules rules_count current_state
          src_ip dst_ip src_port dst_port proto = some 0 ∨
      iptables_rules.check_packet rules rules_count current_state
          src_ip dst_ip src_port dst_port proto = some 1) ∧
    (∀ (rules : List test_rules.ipt_rule_t) (rules_count : Int)
        (src_ip dst_ip src_port dst_port : Nat) (proto : Int),
      rules_count ≤ (rules.length : Int) →
      (∀ (j : Nat) (rj : test_rules.ipt_rule_t), (j : Int) < rules_count →
        rules[j]? = some rj → rj.action = 0 ∨ rj.action = 1) →
      test_rules.check_packet rules rules_count src_ip dst_ip src_port dst_port proto =
          some 0 ∨
      test_rules.check_packet rules rules_count src_ip dst_ip src_port dst_port proto =
          some 1) ∧
    ACTION_ACCEPT = 1 ∧ ACTION_DROP = 0 := by
  have hE : ∀ (rules : List iptables_rules.ipt_rule_t) (rules_count : Int)
      (current_state : Nat → Nat) (src_ip dst_ip src_port dst_port : Nat) (proto : Int),
      rules_count ≤ (rules.length : Int) →
      (∀ (j : Nat) (rj : iptables_rules.ipt_rule_t), (j : Int) < rules_count →
        rules[j]? = some rj → rj.action = 0 ∨ rj.action = 1) →
      iptables_rules.check_packet rules rules_count current_state
          src_ip dst_ip src_port dst_port proto = some 0 ∨
      iptables_rules.check_packet rules rules_count current_state
          src_ip dst_ip src_port dst_port proto = some 1 := by
    intro rules rules_count cs a b c d p hcap hact
    rcases iptables_rules.check_packet_cases rules rules_count cs a b c d p hcap with
      ⟨_, hres⟩ | ⟨k, r, hk, hr, _, _, hres⟩
    · exact Or.inl hres
    · rcases hact k r hk hr with h | h
      · exact Or.inl (by rw [hres, h])
      · exact Or.inr (by rw [hres, h])
  have hS : ∀ (rules : List test_rules.ipt_rule_t) (rules_count : Int)
      (src_ip dst_ip src_port dst_port : Nat) (proto : Int),
      rules_count ≤ (rules.length : Int) →
      (∀ (j : Nat) (rj : test_rules.ipt_rule_t), (j : Int) < rules_count →
        rules[j]? = some rj → rj.action = 0 ∨ rj.action = 1) →
      test_rules.check_packet rules rules_count src_ip dst_ip src_port dst_port proto =
          some 0 ∨
      test_rules.check_packet rules rules_count src_ip dst_ip src_port dst_port proto =
          some 1 := by
    intro rules rules_count a b c d p hcap hact
    rcases test_rules.simple_check_packet_cases rules rules_count a b c d p hcap with
      ⟨_, hres⟩ | ⟨k, r, hk, hr, _, _, hres⟩
    · exact Or.inl hres
    · rcases hact k r hk hr with h | h
      · exact Or.inl (by rw [hres, h])
      · exact Or.inr (by rw [hres, h])
  have hEinit : ∀ (current_state : Nat → Nat) (src_ip dst_ip src_port dst_port : Nat)
      (proto : Int),
      iptables_rules.check_packet (iptables_rules.init_rules iptables_rules.globals_start).rules
          (iptables_rules.init_rules iptables_rules.globals_start).rules_count current_state
          src_ip dst_ip src_port dst_port proto = some ACTION_ACCEPT ∨
      iptables_rules.check_packet (iptables_rules.init_rules iptables_rules.globals_start).rules
          (iptables_rules.init_rules iptables_rules.globals_start).rules_count current_state
          src_ip dst_ip src_port dst_port proto = some ACTION_DROP := by
    intro cs a b c d p
    refine (hE _ _ cs a b c d p init_rules_actions.1 ?_).symm
    intro j rj hj hrj
    exact init_rules_actions.2 rj (mem_take_of_getElem? _ _ j rj (by omega) hrj)
  have hSinit : ∀ (src_ip dst_ip src_port dst_port : Nat) (proto : Int),
      test_rules.check_packet (test_rules.init_rules test_rules.globals_start).rules
          (test_rules.init_rules test_rules.globals_start).rules_count
          src_ip dst_ip src_port dst_port proto = some ACTION_ACCEPT ∨
      test_rules.check_packet (test_rules.init_rules test_rules.globals_start).rules
          (test_rules.init_rules test_rules.globals_start).rules_count
          src_ip dst_ip src_port dst_port proto = some ACTION_DROP := by
    intro a b c d p
    refine (hS _ _ a b c d p simple_init_rules_actions.1 ?_).symm
    intro j rj hj hrj
    exact simple_init_rules_actions.2 rj (mem_take_of_getElem? _ _ j rj (by omega) hrj)
  refine ⟨hEinit, hSinit, ?_, ?_, hE, hS, rfl, rfl⟩
  · intro cs a b c d p
    unfold iptables_rules.main_klee
    rcases hEinit cs a b c d p with h | h
    · simp [h, ACTION_ACCEPT]
    · simp [h, ACTION_ACCEPT, ACTION_DROP]
  · intro a b c d p
    unfold test_rules.main_klee
    rcases hSinit a b c d p with h | h
    · simp [h, ACTION_ACCEPT]
    · simp [h, ACTION_ACCEPT, ACTION_DROP]

/-- Witness for C9: the two-rule table `[TCP dport 22 ACCEPT, catch-all DROP]` has
actions 1 and 0 only; the verdict for `{UDP, dport=53}` is 0 or 1. -/
theorem check_packet_result_binary_witness :
    iptables_rules.check_packet [iptables_rules.scenario_ssh_rule, iptables_rules.catch_all_drop]
        2 (fun _ => STATE_NEW) 3232235876 0 1024 53 17 = some 0 ∨
    iptables_rules.check_packet [iptables_rules.scenario_ssh_rule, iptables_rules.catch_all_drop]
        2 (fun _ => STATE_NEW) 3232235876 0 1024 53 17 = some 1 :=
  check_packet_result_binary.2.2.2.2.1
    [iptables_rules.scenario_ssh_rule, iptables_rules.catch_all_drop] 2 (fun _ => STATE_NEW)
    3232235876 0 1024 53 17 (by decide)
    (fun j rj hj hrj => by
      have hmem : rj ∈ [iptables_rules.scenario_ssh_rule, iptables_rules.catch_all_drop] :=
        List.getElem?_mem hrj
      simp only [List.mem_cons, List.mem_singleton, List.not_mem_nil, or_false] at hmem
      rcases hmem with h | h
      · exact Or.inr (by rw [h]; rfl)
      · exact Or.inl (by rw [h]; rfl))

namespace iptables_rules

/-- The verdict of a two-rule table whose second rule is universal. -/
theorem check_packet_pair (R U : ipt_rule_t) (hU : universal_rule U) (cs : Nat → Nat)
    (src_ip dst_ip src_port dst_port : Nat) (proto : Int) :
    check_packet [R, U] 2 cs src_ip dst_ip src_port dst_port proto =
      if rule_match R (cs 0) src_ip dst_ip src_port dst_port proto then some R.action
      else some U.action := by
  have h2 : (2 : Int).toNat = 2 := rfl
  simp [check_packet, h2, check_packet_loop,
    universal_rule_match U hU (cs 1) src_ip dst_ip src_port dst_port proto]

/-- C10. For every rule `R` with action ACCEPT and every universal catch-all `U`
with action DROP, `check_packet` on the two-rule table `[R, U]` returns ACCEPT
exactly for the packets that pass all six predicates of `R` and DROP for all
others. With `R = {TCP, dport [22,22]}` a TCP packet with dport 80 is dropped;
with `R = {UDP, dst_ip 2886795265 fully masked, dport [4500,4500]}` the packet
`{UDP, dst=2886795265, dport=4500}` is accepted and `{UDP, dst=2886795265,
dport=4501}` is dropped. -/
theorem accept_rule_then_catch_all :
    (∀ (R U : ipt_rule_t) (current_state : Nat → Nat) (src_ip dst_ip src_port dst_port : Nat)
        (proto : Int),
      R.action = ACTION_ACCEPT → universal_rule U → U.action = ACTION_DROP →
      (check_packet [R, U] 2 current_state src_ip dst_ip src_port dst_port proto =
          some ACTION_ACCEPT ↔
        all_predicates_pass R (current_state 0) src_ip dst_ip src_port dst_port proto) ∧
      (check_packet [R, U] 2 current_state src_ip dst_ip src_port dst_port proto =
          some ACTION_DROP ↔
        ¬ all_predicates_pass R (current_state 0) src_ip dst_ip src_port dst_port proto)) ∧
    (∀ (current_state : Nat → Nat) (src_ip dst_ip src_port : Nat),
      check_packet [scenario_ssh_rule, catch_all_drop] 2 current_state
        src_ip dst_ip src_port 80 6 = some ACTION_DROP) ∧
    (∀ (current_state : Nat → Nat) (src_ip src_port : Nat),
      check_packet [scenario_ipsec_rule, catch_all_drop] 2 current_state
        src_ip 2886795265 src_port 4500 17 = some ACTION_ACCEPT) ∧
    (∀ (current_state : Nat → Nat) (src_ip src_port : Nat),
      check_packet [scenario_ipsec_rule, catch_all_drop] 2 current_state
        src_ip 2886795265 src_port 4501 17 = some ACTION_DROP) := by
  have hcatch : universal_rule catch_all_drop := by decide
  refine ⟨?_, ?_, ?_, ?_⟩
  · intro R U cs a b c d p hR hU hUa
    rw [check_packet_pair R U hU, hR, hUa, ← rule_match_eq_true]
    cases rule_match R (cs 0) a b c d p <;> simp [ACTION_ACCEPT, ACTION_DROP]
  · intro cs a b c
    rw [check_packet_pair _ _ hcatch]
    simp [rule_match, proto_mismatch, src_ip_mismatch, dst_ip_mismatch, src_port_mismatch,
      dst_port_mismatch, state_mismatch, scenario_ssh_rule, catch_all_drop, ACTION_DROP]
  · intro cs a c
    rw [check_packet_pair _ _ hcatch]
    simp [rule_match, proto_mismatch, src_ip_mismatch, dst_ip_mismatch, src_port_mismatch,
      dst_port_mismatch, state_mismatch, scenario_ipsec_rule, ACTION_ACCEPT]
  · intro cs a c
    rw [check_packet_pair _ _ hcatch]
    simp [rule_match, proto_mismatch, src_ip_mismatch, dst_ip_mismatch, src_port_mismatch,
      dst_port_mismatch, state_mismatch, scenario_ipsec_rule, catch_all_drop, ACTION_DROP]

/-- Witness for C10: `R = {TCP, dport [22,22], ACCEPT}` before the catch-all DROP;
the packet `{TCP, dport=22}` passes `R` and is accepted. -/
theorem accept_rule_then_catch_all_witness :
    (scenario_ssh_rule.action = ACTION_ACCEPT ∧ universal_rule catch_all_drop ∧
      catch_all_drop.action = ACTION_DROP ∧
      all_predicates_pass scenario_ssh_rule STATE_NEW 3232235876 0 1024 22 6) ∧
    check_packet [scenario_ssh_rule, catch_all_drop] 2 (fun _ => STATE_NEW)
      3232235876 0 1024 22 6 = some ACTION_ACCEPT :=
  ⟨⟨rfl, by decide, rfl, by decide⟩,
    ((accept_rule_then_catch_all.1 scenario_ssh_rule catch_all_drop (fun _ => STATE_NEW)
      3232235876 0 1024 22 6 rfl (by decide) rfl).1).mpr (by decide)⟩

end iptables_rules

/-! ## Scenario 1 and the all-ones embedding of the simple matcher (C11, C12) -/

namespace iptables_rules

/-- C11. For the one-rule table `{proto=TCP(6), src_mask=0, dst_mask=0, src_port=0,
dst_port=0, has_state=false, action=ACCEPT}` the extended `check_packet` returns
ACCEPT for every packet with proto 6, the packet `{src=192.168.1.100, dst=0,
sport=1024, dport=80, proto=6}` among them, and DROP for every packet with any
other proto. -/
theorem tcp_only_table_verdict :
    (∀ (rules : List ipt_rule_t) (current_state : Nat → Nat)
        (src_ip dst_ip src_port dst_port : Nat) (proto : Int),
      rules[0]? = some scenario_tcp_rule →
      (proto = 6 →
        check_packet rules 1 current_state src_ip dst_ip src_port dst_port proto =
          some ACTION_ACCEPT) ∧
      (proto ≠ 6 →
        check_packet rules 1 current_state src_ip dst_ip src_port dst_port proto =
          some ACTION_DROP)) ∧
    check_packet [scenario_tcp_rule] 1 plain_state 3232235876 0 1024 80 6 =
      some ACTION_ACCEPT := by
  have h1 : (1 : Int).toNat = 1 := rfl
  refine ⟨?_, by decide⟩
  intro rules cs a b c d p hr
  constructor
  · intro hp
    simp [check_packet, h1, check_packet_loop, hr, rule_match, proto_mismatch, src_ip_mismatch,
      dst_ip_mismatch, src_port_mismatch, dst_port_mismatch, state_mismatch, scenario_tcp_rule,
      hp, ACTION_ACCEPT]
  · intro hp
    have hp2 : ¬ (6 : Int) = p := fun h => hp h.symm
    simp [check_packet, h1, check_packet_loop, hr, rule_match, proto_mismatch, src_ip_mismatch,
      dst_ip_mismatch, src_port_mismatch, dst_port_mismatch, state_mismatch, scenario_tcp_rule,
      hp2]

/-- Witness for C11: a UDP packet on the one-rule TCP table is dropped. -/
theorem tcp_only_table_verdict_witness :
    ([scenario_tcp_rule] : List ipt_rule_t)[0]? = some scenario_tcp_rule ∧ (17 : Int) ≠ 6 ∧
    check_packet [scenario_tcp_rule] 1 plain_state 3232235876 0 1024 53 17 =
      some ACTION_DROP :=
  ⟨rfl, by decide,
    (tcp_only_table_verdict.1 [scenario_tcp_rule] plain_state 3232235876 0 1024 53 17 rfl).2
      (by decide)⟩

/-- A 32-bit value is unchanged by the all-ones mask. -/
theorem and_all_ones (x : Nat) (hx : x < 2 ^ 32) : x &&& 0xFFFFFFFF = x := by
  have h := Nat.and_pow_two_sub_one_eq_mod x 32
  have e : (2 : Nat) ^ 32 - 1 = 0xFFFFFFFF := by norm_num
  rw [e] at h
  rw [h]
  exact Nat.mod_eq_of_lt hx

/-- The flag `match` of an all-ones embedded rule, in terms of the simple rule. -/
theorem rule_match_embed_all_ones (r : test_rules.ipt_rule_t) (state : Nat)
    (src_ip dst_ip src_port dst_port : Nat) (proto : Int)
    (hs : src_ip < 2 ^ 32) (hd : dst_ip < 2 ^ 32)
    (hrs : r.src_ip < 2 ^ 32) (hrd : r.dst_ip < 2 ^ 32) :
    rule_match (embed_all_ones r) state src_ip dst_ip src_port dst_port proto = true ↔
      ((r.proto = -1 ∨ r.proto = proto) ∧ r.src_ip = src_ip ∧ r.dst_ip = dst_ip ∧
        (r.src_port = 0 ∨ r.src_port = src_port) ∧
        (r.dst_port = 0 ∨ r.dst_port = dst_port)) := by
  rw [rule_match_eq_true]
  unfold all_predicates_pass
  simp only [embed_all_ones, and_all_ones _ hs, and_all_ones _ hd, and_all_ones _ hrs,
    and_all_ones _ hrd]
  constructor
  · rintro ⟨h1, h2, h3, h4, h5, _⟩
    refine ⟨h1, ?_, ?_, ?_, ?_⟩
    · rcases h2 with h | h
      · exact absurd h (by decide)
      · exact h.symm
    · rcases h3 with h | h
      · exact absurd h (by decide)
      · exact h.symm
    · rcases h4 with h | ⟨ha, hb⟩
      · exact Or.inl h
      · exact Or.inr (Nat.le_antisymm ha hb)
    · rcases h5 with h | ⟨ha, hb⟩
      · exact Or.inl h
      · exact Or.inr (Nat.le_antisymm ha hb)
  · rintro ⟨h1, h2, h3, h4, h5⟩
    refine ⟨h1, Or.inr h2.symm, Or.inr h3.symm, ?_, ?_, Or.inl trivial⟩
    · rcases h4 with h | h
      · exact Or.inl h
      · exact Or.inr ⟨Nat.le_of_eq h, Nat.le_of_eq h.symm⟩
    · rcases h5 with h | h
      · exact Or.inl h
      · exact Or.inr ⟨Nat.le_of_eq h, Nat.le_of_eq h.symm⟩

end iptables_rules

namespace iptables_rules

/-- The extended loop on an all-ones embedded table runs like the simple loop
on the original table, as long as every rule met whose address is 0 meets a
packet address 0. -/
theorem check_packet_loop_embed_all_ones (rules : List test_rules.ipt_rule_t) (cs : Nat → Nat)
    (src_ip dst_ip src_port dst_port : Nat) (proto : Int)
    (hs : src_ip < 2 ^ 32) (hd : dst_ip < 2 ^ 32) :
    ∀ (n i : Nat),
      (∀ (j : Nat) (rj : test_rules.ipt_rule_t), i ≤ j → j < i + n → rules[j]? = some rj →
        rj.src_ip < 2 ^ 32 ∧ rj.dst_ip < 2 ^ 32 ∧
        (rj.src_ip = 0 → src_ip = 0) ∧ (rj.dst_ip = 0 → dst_ip = 0)) →
      check_packet_loop (rules.map embed_all_ones) cs src_ip dst_ip src_port dst_port proto n i =
        test_rules.check_packet_loop rules src_ip dst_ip src_port dst_port proto n i := by
  intro n
  induction n with
  | zero => intro i _; rfl
  | succ n ih =>
    intro i hall
    have hrec := ih (i + 1) (fun j rj h1 h2 h3 => hall j rj (by omega) (by omega) h3)
    cases hri : rules[i]? with
    | none => simp [check_packet_loop, test_rules.check_packet_loop, hri]
    | some r =>
      obtain ⟨hrs, hrd, hzs, hzd⟩ := hall i r (Nat.le_refl i) (by omega) hri
      have hflag : rule_match (embed_all_ones r) (cs i) src_ip dst_ip src_port dst_port proto =
          test_rules.rule_match r src_ip dst_ip src_port dst_port proto := by
        rw [Bool.eq_iff_iff, rule_match_embed_all_ones r (cs i) _ _ _ _ _ hs hd hrs hrd,
          test_rules.simple_rule_match_eq_true]
        unfold test_rules.all_fields_pass
        constructor
        · rintro ⟨h1, h2, h3, h4, h5⟩
          exact ⟨h1, Or.inr h2, Or.inr h3, h4, h5⟩
        · rintro ⟨h1, h2, h3, h4, h5⟩
          refine ⟨h1, ?_, ?_, h4, h5⟩
          · rcases h2 with h | h
            · rw [h, hzs h]
            · exact h
          · rcases h3 with h | h
            · rw [h, hzd h]
            · exact h
      have hact : (embed_all_ones r).action = r.action := rfl
      simp [check_packet_loop, test_rules.check_packet_loop, hri, hflag, hrec, hact]

/-- C12, as stated, fails: on the simple table `[TCP dport 80 ACCEPT, catch-all
DROP]` the default test packet of `main` (source 192.168.1.100) is accepted by
the simple matcher, while the extended matcher on the all-ones embedding of the
same table drops it, the rule address 0 under mask `0xFFFFFFFF` matching the
packet address 0 only. -/
theorem all_ones_embedding_differs :
    check_packet ([test_rules.simple_http_rule, test_rules.simple_catch_all_drop].map
        embed_all_ones) 2 plain_state 3232235876 0 1024 80 6 = some ACTION_DROP ∧
    test_rules.check_packet [test_rules.simple_http_rule, test_rules.simple_catch_all_drop] 2
        3232235876 0 1024 80 6 = some ACTION_ACCEPT ∧
    check_packet ([test_rules.simple_http_rule, test_rules.simple_catch_all_drop].map
        embed_all_ones) 2 plain_state 3232235876 0 1024 80 6 ≠
      test_rules.check_packet [test_rules.simple_http_rule, test_rules.simple_catch_all_drop] 2
        3232235876 0 1024 80 6 := by
  decide

/-- C12, amended. For every simple-variant table and every packet with 32-bit
addresses such that every rule below `rules_count` has 32-bit addresses and a
rule whose `src_ip` (resp. `dst_ip`) is 0 only meets a packet whose source
(resp. destination) address is 0, the extended `check_packet` on the table
obtained by copying each rule with `src_port_high = src_port`,
`dst_port_high = dst_port`, both masks `0xFFFFFFFF` and `has_state = false`
returns the same verdict as the simple `check_packet` on the original table.
Tables whose rules all have nonzero addresses satisfy the condition for every
packet. -/
theorem all_ones_embedding_agrees (rules : List test_rules.ipt_rule_t) (rules_count : Int)
    (current_state : Nat → Nat) (src_ip dst_ip src_port dst_port : Nat) (proto : Int)
    (hs : src_ip < 2 ^ 32) (hd : dst_ip < 2 ^ 32)
    (hrules : ∀ (j : Nat) (rj : test_rules.ipt_rule_t), (j : Int) < rules_count →
      rules[j]? = some rj →
      rj.src_ip < 2 ^ 32 ∧ rj.dst_ip < 2 ^ 32 ∧
      (rj.src_ip = 0 → src_ip = 0) ∧ (rj.dst_ip = 0 → dst_ip = 0)) :
    check_packet (rules.map embed_all_ones) rules_count current_state
        src_ip dst_ip src_port dst_port proto =
      test_rules.check_packet rules rules_count src_ip dst_ip src_port dst_port proto := by
  unfold check_packet test_rules.check_packet
  exact check_packet_loop_embed_all_ones rules current_state src_ip dst_ip src_port dst_port
    proto hs hd _ 0 (fun j rj _ h2 h3 => hrules j rj (by omega) h3)

/-- Witness for the amended C12: on `[TCP dport 80 ACCEPT, catch-all DROP]` the
packet `{src=0, dst=0, sport=1024, dport=80, TCP}` gets the same verdict from
both matchers. -/
theorem all_ones_embedding_agrees_witness :
    ((0 : Nat) < 2 ^ 32) ∧
    check_packet ([test_rules.simple_http_rule, test_rules.simple_catch_all_drop].map
        embed_all_ones) 2 plain_state 0 0 1024 80 6 =
      test_rules.check_packet [test_rules.simple_http_rule, test_rules.simple_catch_all_drop] 2
        0 0 1024 80 6 :=
  ⟨by decide,
    all_ones_embedding_agrees [test_rules.simple_http_rule, test_rules.simple_catch_all_drop] 2
      plain_state 0 0 1024 80 6 (by decide) (by decide)
      (fun j rj _ hrj => by
        have hmem : rj ∈ [test_rules.simple_http_rule, test_rules.simple_catch_all_drop] :=
          List.getElem?_mem hrj
        simp only [List.mem_cons, List.mem_singleton, List.not_mem_nil, or_false] at hmem
        rcases hmem with h | h
        · subst h; decide
        · subst h; decide)⟩

end iptables_rules

/-! ## Totality, determinism and frame (C14, C15, C18) -/

namespace iptables_rules

/-- Inside the array the instrumented loop returns what the loop returns, a
verdict, after at most `n` reads, all at indices from `i` to `i + n - 1`. -/
theorem check_packet_loop_trace_spec (rules : List ipt_rule_t) (cs : Nat → Nat)
    (src_ip dst_ip src_port dst_port : Nat) (proto : Int) :
    ∀ (n i : Nat), i + n ≤ rules.length →
      (check_packet_loop_trace rules cs src_ip dst_ip src_port dst_port proto n i).1 =
        check_packet_loop rules cs src_ip dst_ip src_port dst_port proto n i ∧
      (∃ v : Int, check_packet_loop rules cs src_ip dst_ip src_port dst_port proto n i =
        some v) ∧
      (check_packet_loop_trace rules cs src_ip dst_ip src_port dst_port proto n i).2.length ≤ n ∧
      (∀ j ∈ (check_packet_loop_trace rules cs src_ip dst_ip src_port dst_port proto n i).2,
        i ≤ j ∧ j < i + n) := by
  intro n
  induction n with
  | zero =>
    intro i _
    simp [check_packet_loop_trace, check_packet_loop]
  | succ n ih =>
    intro i hlen
    have hilen : i < rules.length := by omega
    have hi : rules[i]? = some rules[i] := List.getElem?_eq_getElem hilen
    obtain ⟨h1, ⟨v, h2⟩, h3, h4⟩ := ih (i + 1) (by omega)
    by_cases hm : rule_match rules[i] (cs i) src_ip dst_ip src_port dst_port proto = true
    · simp [check_packet_loop_trace, check_packet_loop, hi, hm]
    · simp only [Bool.not_eq_true] at hm
      refine ⟨?_, ⟨v, ?_⟩, ?_, ?_⟩
      · simp [check_packet_loop_trace, check_packet_loop, hi, hm, h1]
      · simp [check_packet_loop, hi, hm, h2]
      · simp [check_packet_loop_trace, hi, hm]
        omega
      · intro j hj
        simp [check_packet_loop_trace, hi, hm] at hj
        rcases hj with hj | hj
        · omega
        · have := h4 j hj
          omega

/-- C14. Classification is total: for every `rules_count` with
`0 <= rules_count <= MAX_RULES` (128), every contents of the 128-entry array
and every packet, `check_packet` returns a verdict (there is no error branch,
and the embedding's undefined read does not occur), after at most
`rules_count` loop iterations, reading only entries `rules[0..rules_count-1]`,
all inside the array. -/
theorem check_packet_total (rules : List ipt_rule_t) (rules_count : Int)
    (current_state : Nat → Nat) (src_ip dst_ip src_port dst_port : Nat) (proto : Int)
    (hlen : rules.length = MAX_RULES) (h0 : 0 ≤ rules_count)
    (h1 : rules_count ≤ (MAX_RULES : Int)) :
    (∃ v : Int, check_packet rules rules_count current_state
        src_ip dst_ip src_port dst_port proto = some v) ∧
    (check_packet_trace rules rules_count current_state
        src_ip dst_ip src_port dst_port proto).1 =
      check_packet rules rules_count current_state src_ip dst_ip src_port dst_port proto ∧
    (((check_packet_trace rules rules_count current_state
        src_ip dst_ip src_port dst_port proto).2.length : Nat) : Int) ≤ rules_count ∧
    (∀ j ∈ (check_packet_trace rules rules_count current_state
        src_ip dst_ip src_port dst_port proto).2,
      (j : Int) < rules_count ∧ j < MAX_RULES) := by
  have hfit : 0 + rules_count.toNat ≤ rules.length := by
    rw [hlen]
    omega
  obtain ⟨a, b, c, d⟩ := check_packet_loop_trace_spec rules current_state
    src_ip dst_ip src_port dst_port proto rules_count.toNat 0 hfit
  refine ⟨b, a, ?_, ?_⟩
  · unfold check_packet_trace
    omega
  · intro j hj
    have := d j hj
    constructor
    · omega
    · rw [← hlen]
      omega

set_option maxRecDepth 4000 in
/-- Witness for C14: the table of `init_rules` (128 entries, `rules_count = 8`)
and the default test packet of `main`. -/
theorem check_packet_total_witness :
    ((init_rules globals_start).rules.length = MAX_RULES ∧
      0 ≤ (init_rules globals_start).rules_count ∧
      (init_rules globals_start).rules_count ≤ (MAX_RULES : Int)) ∧
    ∃ v : Int, check_packet (init_rules globals_start).rules
      (init_rules globals_start).rules_count plain_state 3232235876 0 1024 80 6 = some v :=
  ⟨by decide,
    (check_packet_total (init_rules globals_start).rules (init_rules globals_start).rules_count
      plain_state 3232235876 0 1024 80 6 (by decide) (by decide) (by decide)).1⟩

end iptables_rules

namespace iptables_rules

/-- The loop hands back the globals it was given. -/
theorem check_packet_loop_st_globals (cs : Nat → Nat)
    (src_ip dst_ip src_port dst_port : Nat) (proto : Int) :
    ∀ (n i : Nat) (g : Globals),
      (check_packet_loop_st cs src_ip dst_ip src_port dst_port proto n i g).2 = g := by
  intro n
  induction n with
  | zero => intro i g; rfl
  | succ n ih =>
    intro i g
    unfold check_packet_loop_st
    cases g.rules[i]? with
    | none => rfl
    | some r =>
      by_cases hm : rule_match r (cs i) src_ip dst_ip src_port dst_port proto = true
      · simp [hm]
      · simp [hm, ih]

/-- The value of the loop on globals `g` is the value of the loop on `g.rules`. -/
theorem check_packet_loop_st_value (cs : Nat → Nat)
    (src_ip dst_ip src_port dst_port : Nat) (proto : Int) :
    ∀ (n i : Nat) (g : Globals),
      (check_packet_loop_st cs src_ip dst_ip src_port dst_port proto n i g).1 =
        check_packet_loop g.rules cs src_ip dst_ip src_port dst_port proto n i := by
  intro n
  induction n with
  | zero => intro i g; rfl
  | succ n ih =>
    intro i g
    unfold check_packet_loop_st check_packet_loop
    cases g.rules[i]? with
    | none => rfl
    | some r =>
      by_cases hm : rule_match r (cs i) src_ip dst_ip src_port dst_port proto = true
      · simp [hm]
      · simp [hm, ih]

end iptables_rules

namespace test_rules

/-- The loop hands back the globals it was given. -/
theorem simple_check_packet_loop_st_globals
    (src_ip dst_ip src_port dst_port : Nat) (proto : Int) :
    ∀ (n i : Nat) (g : Globals),
      (check_packet_loop_st src_ip dst_ip src_port dst_port proto n i g).2 = g := by
  intro n
  induction n with
  | zero => intro i g; rfl
  | succ n ih =>
    intro i g
    unfold check_packet_loop_st
    cases g.rules[i]? with
    | none => rfl
    | some r =>
      by_cases hm : rule_match r src_ip dst_ip src_port dst_port proto = true
      · simp [hm]
      · simp [hm, ih]

/-- The value of the loop on globals `g` is the value of the loop on `g.rules`. -/
theorem simple_check_packet_loop_st_value
    (src_ip dst_ip src_port dst_port : Nat) (proto : Int) :
    ∀ (n i : Nat) (g : Globals),
      (check_packet_loop_st src_ip dst_ip src_port dst_port proto n i g).1 =
        check_packet_loop g.rules src_ip dst_ip src_port dst_port proto n i := by
  intro n
  induction n with
  | zero => intro i g; rfl
  | succ n ih =>
    intro i g
    unfold check_packet_loop_st check_packet_loop
    cases g.rules[i]? with
    | none => rfl
    | some r =>
      by_cases hm : rule_match r src_ip dst_ip src_port dst_port proto = true
      · simp [hm]
      · simp [hm, ih]

end test_rules

/-- C15. Determinism and statelessness, in both variants: a second call of
`check_packet` with the same packet, made on the globals the first call left,
returns the same action; so does a call made after a call with any other
packet; and the value returned is the function `check_packet` of the table
(`rules`, `rules_count`) and the packet (with its connection state) alone. -/
theorem check_packet_deterministic :
    (∀ (g : iptables_rules.Globals) (cs : Nat → Nat) (src_ip dst_ip src_port dst_port : Nat)
        (proto : Int),
      (iptables_rules.check_packet_call
          (iptables_rules.check_packet_call g cs src_ip dst_ip src_port dst_port proto).2
          cs src_ip dst_ip src_port dst_port proto).1 =
        (iptables_rules.check_packet_call g cs src_ip dst_ip src_port dst_port proto).1) ∧
    (∀ (g : iptables_rules.Globals) (cs cs0 : Nat → Nat)
        (src_ip dst_ip src_port dst_port : Nat) (proto : Int)
        (src_ip0 dst_ip0 src_port0 dst_port0 : Nat) (proto0 : Int),
      (iptables_rules.check_packet_call
          (iptables_rules.check_packet_call g cs0 src_ip0 dst_ip0 src_port0 dst_port0 proto0).2
          cs src_ip dst_ip src_port dst_port proto).1 =
        (iptables_rules.check_packet_call g cs src_ip dst_ip src_port dst_port proto).1) ∧
    (∀ (g : iptables_rules.Globals) (cs : Nat → Nat) (src_ip dst_ip src_port dst_port : Nat)
        (proto : Int),
      (iptables_rules.check_packet_call g cs src_ip dst_ip src_port dst_port proto).1 =
        iptables_rules.check_packet g.rules g.rules_count cs
          src_ip dst_ip src_port dst_port proto) ∧
    (∀ (g : test_rules.Globals) (src_ip dst_ip src_port dst_port : Nat) (proto : Int),
      (test_rules.check_packet_call
          (test_rules.check_packet_call g src_ip dst_ip src_port dst_port proto).2
          src_ip dst_ip src_port dst_port proto).1 =
        (test_rules.check_packet_call g src_ip dst_ip src_port dst_port proto).1) ∧
    (∀ (g : test_rules.Globals) (src_ip dst_ip src_port dst_port : Nat) (proto : Int)
        (src_ip0 dst_ip0 src_port0 dst_port0 : Nat) (proto0 : Int),
      (test_rules.check_packet_call
          (test_rules.check_packet_call g src_ip0 dst_ip0 src_port0 dst_port0 proto0).2
          src_ip dst_ip src_port dst_port proto).1 =
        (test_rules.check_packet_call g src_ip dst_ip src_port dst_port proto).1) ∧
    (∀ (g : test_rules.Globals) (src_ip dst_ip src_port dst_port : Nat) (proto : Int),
      (test_rules.check_packet_call g src_ip dst_ip src_port dst_port proto).1 =
        test_rules.check_packet g.rules g.rules_count src_ip dst_ip src_port dst_port proto) := by
  have hE : ∀ (g : iptables_rules.Globals) (cs : Nat → Nat) (a b c d : Nat) (p : Int),
      (iptables_rules.check_packet_call g cs a b c d p).2 = g := by
    intro g cs a b c d p
    exact iptables_rules.check_packet_loop_st_globals cs a b c d p _ 0 g
  have hS : ∀ (g : test_rules.Globals) (a b c d : Nat) (p : Int),
      (test_rules.check_packet_call g a b c d p).2 = g := by
    intro g a b c d p
    exact test_rules.simple_check_packet_loop_st_globals a b c d p _ 0 g
  refine ⟨?_, ?_, ?_, ?_, ?_, ?_⟩
  · intro g cs a b c d p
    rw [hE]
  · intro g cs cs0 a b c d p a0 b0 c0 d0 p0
    rw [hE]
  · intro g cs a b c d p
    exact iptables_rules.check_packet_loop_st_value cs a b c d p _ 0 g
  · intro g a b c d p
    rw [hS]
  · intro g a b c d p a0 b0 c0 d0 p0
    rw [hS]
  · intro g a b c d p
    exact test_rules.simple_check_packet_loop_st_value a b c d p _ 0 g

/-- C18. The classifier does not mutate the rule table, in both variants: after
a call of `check_packet` the globals are the globals before the call, that is
`rules_count` is unchanged and so is every entry of `rules` (hence every field
of every entry). -/
theorem check_packet_frame :
    (∀ (g : iptables_rules.Globals) (cs : Nat → Nat) (src_ip dst_ip src_port dst_port : Nat)
        (proto : Int),
      (iptables_rules.check_packet_call g cs src_ip dst_ip src_port dst_port proto).2 = g ∧
      (iptables_rules.check_packet_call g cs src_ip dst_ip src_port dst_port
        proto).2.rules_count = g.rules_count ∧
      ∀ (i : Nat),
        (iptables_rules.check_packet_call g cs src_ip dst_ip src_port dst_port
          proto).2.rules[i]? = g.rules[i]?) ∧
    (∀ (g : test_rules.Globals) (src_ip dst_ip src_port dst_port : Nat) (proto : Int),
      (test_rules.check_packet_call g src_ip dst_ip src_port dst_port proto).2 = g ∧
      (test_rules.check_packet_call g src_ip dst_ip src_port dst_port proto).2.rules_count =
        g.rules_count ∧
      ∀ (i : Nat),
        (test_rules.check_packet_call g src_ip dst_ip src_port dst_port proto).2.rules[i]? =
          g.rules[i]?) := by
  constructor
  · intro g cs a b c d p
    have h : (iptables_rules.check_packet_call g cs a b c d p).2 = g :=
      iptables_rules.check_packet_loop_st_globals cs a b c d p _ 0 g
    refine ⟨h, ?_, ?_⟩
    · rw [h]
    · intro i
      rw [h]
  · intro g a b c d p
    have h : (test_rules.check_packet_call g a b c d p).2 = g :=
      test_rules.simple_check_packet_loop_st_globals a b c d p _ 0 g
    refine ⟨h, ?_, ?_⟩
    · rw [h]
    · intro i
      rw [h]

/-! ## Rule order, the plain build, the example filters and the built-in table
(C16, C17, C19, C20) -/

namespace iptables_rules

/-- C16. Rule order is semantically significant: the tables
`[TCP dport 22 ACCEPT, catch-all DROP]` and `[catch-all DROP, TCP dport 22
ACCEPT]` hold the same rules in a different order, and for the packet
`{TCP, dport=22}` `check_packet` returns ACCEPT on the first and DROP on the
second. -/
theorem rule_order_significant :
    List.Perm [scenario_ssh_rule, catch_all_drop] [catch_all_drop, scenario_ssh_rule] ∧
    check_packet [scenario_ssh_rule, catch_all_drop] 2 plain_state 3232235876 0 1024 22 6 =
      some ACTION_ACCEPT ∧
    check_packet [catch_all_drop, scenario_ssh_rule] 2 plain_state 3232235876 0 1024 22 6 =
      some ACTION_DROP ∧
    (∃ (t1 t2 : List ipt_rule_t) (src_ip dst_ip src_port dst_port : Nat) (proto : Int),
      List.Perm t1 t2 ∧
      check_packet t1 (t1.length : Int) plain_state src_ip dst_ip src_port dst_port proto ≠
        check_packet t2 (t2.length : Int) plain_state src_ip dst_ip src_port dst_port proto) := by
  refine ⟨List.Perm.swap _ _ _, by decide, by decide, ?_⟩
  exact ⟨[scenario_ssh_rule, catch_all_drop], [catch_all_drop, scenario_ssh_rule],
    3232235876, 0, 1024, 22, 6, List.Perm.swap _ _ _, by decide⟩

/-- C17. In the build without `USE_KLEE` the connection state used for every
state-requiring rule is NEW: a rule with `has_state` set passes its state check
if and only if its `state_mask` has the NEW bit (value 1) set; so a rule with
`has_state` set and `state_mask = ESTABLISHED|RELATED` (6) matches no packet at
all, and `check_packet` never returns by it. -/
theorem plain_build_state_is_new :
    (∀ (i : Nat), plain_state i = STATE_NEW) ∧
    (∀ (r : ipt_rule_t) (i : Nat), r.has_state = true →
      (state_mismatch r (plain_state i) = false ↔ r.state_mask &&& 1 ≠ 0)) ∧
    (∀ (r : ipt_rule_t) (i : Nat), r.has_state = true →
      (state_mismatch r (plain_state i) = false ↔ r.state_mask % 2 = 1)) ∧
    (∀ (r : ipt_rule_t) (i : Nat) (src_ip dst_ip src_port dst_port : Nat) (proto : Int),
      r.has_state = true → r.state_mask = 6 →
      rule_match r (plain_state i) src_ip dst_ip src_port dst_port proto = false) ∧
    (∀ (rules : List ipt_rule_t) (r : ipt_rule_t)
        (src_ip dst_ip src_port dst_port : Nat) (proto : Int),
      rules[0]? = some r → r.has_state = true → r.state_mask = 6 →
      check_packet rules 1 plain_state src_ip dst_ip src_port dst_port proto =
        some ACTION_DROP) ∧
    STATE_ESTABLISHED ||| STATE_RELATED = 6 := by
  have hnever : ∀ (r : ipt_rule_t) (i : Nat) (src_ip dst_ip src_port dst_port : Nat)
      (proto : Int), r.has_state = true → r.state_mask = 6 →
      rule_match r (plain_state i) src_ip dst_ip src_port dst_port proto = false := by
    intro r i a b c d p h hm
    rw [rule_match_eq_false]
    unfold all_predicates_pass
    rintro ⟨_, _, _, _, _, h6⟩
    rcases h6 with h6 | h6
    · rw [h] at h6
      exact absurd h6 (by decide)
    · rw [hm] at h6
      have h0 : (6 : Nat) &&& STATE_NEW = 0 := by decide
      exact h6 h0
  refine ⟨fun _ => rfl, ?_, ?_, hnever, ?_, by decide⟩
  · intro r i h
    rw [state_mismatch_eq_false]
    simp [h, plain_state, STATE_NEW]
  · intro r i h
    rw [state_mismatch_eq_false]
    simp [h, plain_state, STATE_NEW]
  · intro rules r a b c d p hr h hm
    have h1 : (1 : Int).toNat = 1 := rfl
    simp [check_packet, h1, check_packet_loop, hr, hnever r 0 a b c d p h hm]

/-- Witness for C17: the rule of scenario 4 (`has_state`, mask
ESTABLISHED|RELATED, action ACCEPT, nothing else constrained) does not match
the default test packet of `main` in the plain build. -/
theorem plain_build_state_is_new_witness :
    (scenario_state_rule.has_state = true ∧ scenario_state_rule.state_mask = 6) ∧
    rule_match scenario_state_rule (plain_state 0) 3232235876 0 1024 80 6 = false :=
  ⟨⟨rfl, by decide⟩,
    plain_build_state_is_new.2.2.2.1 scenario_state_rule 0 3232235876 0 1024 80 6 rfl
      (by decide)⟩

end iptables_rules

/-- C19. The example filters are single-condition special cases of the simple
matcher. `handle_ingress` of `example_dst_port.c` returns 1 if the packet's
destination port is 22 and 0 otherwise, which is the verdict of the simple
`check_packet` on the one-rule table `{proto=-1, src_ip=0, dst_ip=0,
src_port=0, dst_port=22, action=ACCEPT}`; `handle_ingress` of
`example_src_ip.c` returns 1 if the source address is `0xC0A80164` and 0
otherwise, which is the verdict on the one-rule table `{proto=-1,
src_ip=0xC0A80164, all other fields 0, action=ACCEPT}`. -/
theorem example_filters_special_cases :
    (∀ (dst_port : Nat),
      example_dst_port.handle_ingress dst_port = if dst_port = 22 then 1 else 0) ∧
    (∀ (rules : List test_rules.ipt_rule_t) (src_ip dst_ip src_port dst_port : Nat)
        (proto : Int),
      rules[0]? = some test_rules.dst_port_22_rule →
      test_rules.check_packet rules 1 src_ip dst_ip src_port dst_port proto =
        some (example_dst_port.handle_ingress dst_port)) ∧
    (∀ (src_ip : Nat),
      example_src_ip.handle_ingress src_ip = if src_ip = 0xC0A80164 then 1 else 0) ∧
    (∀ (rules : List test_rules.ipt_rule_t) (src_ip dst_ip src_port dst_port : Nat)
        (proto : Int),
      rules[0]? = some test_rules.src_ip_rule →
      test_rules.check_packet rules 1 src_ip dst_ip src_port dst_port proto =
        some (example_src_ip.handle_ingress src_ip)) := by
  have h1 : (1 : Int).toNat = 1 := rfl
  refine ⟨?_, ?_, ?_, ?_⟩
  · intro d
    simp [example_dst_port.handle_ingress]
  · intro rules a b c d p hr
    by_cases hd : d = 22
    · subst hd
      simp [test_rules.check_packet, h1, test_rules.check_packet_loop, hr,
        test_rules.rule_match, test_rules.proto_mismatch, test_rules.src_ip_mismatch,
        test_rules.dst_ip_mismatch, test_rules.src_port_mismatch, test_rules.dst_port_mismatch,
        test_rules.dst_port_22_rule, example_dst_port.handle_ingress]
    · have hd2 : ¬ 22 = d := fun h => hd h.symm
      simp [test_rules.check_packet, h1, test_rules.check_packet_loop, hr,
        test_rules.rule_match, test_rules.proto_mismatch, test_rules.src_ip_mismatch,
        test_rules.dst_ip_mismatch, test_rules.src_port_mismatch, test_rules.dst_port_mismatch,
        test_rules.dst_port_22_rule, example_dst_port.handle_ingress, hd, hd2, ACTION_DROP]
  · intro a
    simp [example_src_ip.handle_ingress]
  · intro rules a b c d p hr
    by_cases ha : a = 3232235876
    · subst ha
      simp [test_rules.check_packet, h1, test_rules.check_packet_loop, hr,
        test_rules.rule_match, test_rules.proto_mismatch, test_rules.src_ip_mismatch,
        test_rules.dst_ip_mismatch, test_rules.src_port_mismatch, test_rules.dst_port_mismatch,
        test_rules.src_ip_rule, example_src_ip.handle_ingress]
    · have ha2 : ¬ 3232235876 = a := fun h => ha h.symm
      simp [test_rules.check_packet, h1, test_rules.check_packet_loop, hr,
        test_rules.rule_match, test_rules.proto_mismatch, test_rules.src_ip_mismatch,
        test_rules.dst_ip_mismatch, test_rules.src_port_mismatch, test_rules.dst_port_mismatch,
        test_rules.src_ip_rule, example_src_ip.handle_ingress, ha, ha2, ACTION_DROP]

/-- Witness for C19: on the one-rule table for destination port 22 a packet to
port 22 gets `handle_ingress`'s 1 and `check_packet`'s ACCEPT. -/
theorem example_filters_special_cases_witness :
    ([test_rules.dst_port_22_rule] : List test_rules.ipt_rule_t)[0]? =
      some test_rules.dst_port_22_rule ∧
    test_rules.check_packet [test_rules.dst_port_22_rule] 1 3232235876 0 1024 22 6 =
      some (example_dst_port.handle_ingress 22) ∧
    example_dst_port.handle_ingress 22 = ACTION_ACCEPT :=
  ⟨rfl,
    example_filters_special_cases.2.1 [test_rules.dst_port_22_rule] 3232235876 0 1024 22 6 rfl,
    rfl⟩

namespace iptables_rules

/-- The loop reads only the entries from `i` to `i + n - 1`: two arrays that
agree there give the same result. -/
theorem check_packet_loop_congr (l1 l2 : List ipt_rule_t) (cs : Nat → Nat)
    (src_ip dst_ip src_port dst_port : Nat) (proto : Int) :
    ∀ (n i : Nat), (∀ (j : Nat), i ≤ j → j < i + n → l1[j]? = l2[j]?) →
      check_packet_loop l1 cs src_ip dst_ip src_port dst_port proto n i =
        check_packet_loop l2 cs src_ip dst_ip src_port dst_port proto n i := by
  intro n
  induction n with
  | zero => intro i _; rfl
  | succ n ih =>
    intro i hagree
    have hi := hagree i (Nat.le_refl i) (by omega)
    have hrec := ih (i + 1) (fun j h1 h2 => hagree j (by omega) (by omega))
    unfold check_packet_loop
    rw [hi, hrec]

set_option maxRecDepth 4000 in
/-- The first eight entries of the table of `init_rules` are its eight literal
rules. -/
theorem init_rules_first_entries :
    (init_rules globals_start).rules_count = 8 ∧
    ∀ (j : Nat), j < 8 → (init_rules globals_start).rules[j]? = init_rule_list[j]? := by
  decide

/-- The verdict of the eight literal rules of `init_rules` on a packet with
32-bit addresses. -/
theorem check_packet_init_rule_list (cs : Nat → Nat)
    (src_ip dst_ip src_port dst_port : Nat) (proto : Int)
    (hs : src_ip < 2 ^ 32) (hd : dst_ip < 2 ^ 32) :
    check_packet init_rule_list 8 cs src_ip dst_ip src_port dst_port proto =
      if (proto = 6 ∨ proto = 17) ∧ src_ip = 0 ∧ dst_ip = 0 then some ACTION_ACCEPT
      else some ACTION_DROP := by
  have h8 : (8 : Int).toNat = 8 := rfl
  have hz : (0 : Nat) &&& 4294967295 = 0 := by decide
  have hsa := and_all_ones src_ip hs
  have hda := and_all_ones dst_ip hd
  norm_num at hsa hda
  by_cases h6 : proto = 6
  · subst h6
    by_cases ha : src_ip = 0 <;> by_cases hb : dst_ip = 0 <;>
      simp [check_packet, h8, check_packet_loop, init_rule_list, catch_all_drop, rule_match,
        proto_mismatch, src_ip_mismatch, dst_ip_mismatch, src_port_mismatch, dst_port_mismatch,
        state_mismatch, apply_mask, hsa, hda, hz, ha, hb, ACTION_ACCEPT, ACTION_DROP]
  · have h6b : ¬ (6 : Int) = proto := fun h => h6 h.symm
    by_cases h17 : proto = 17
    · subst h17
      by_cases ha : src_ip = 0 <;> by_cases hb : dst_ip = 0 <;>
        simp [check_packet, h8, check_packet_loop, init_rule_list, catch_all_drop, rule_match,
          proto_mismatch, src_ip_mismatch, dst_ip_mismatch, src_port_mismatch,
          dst_port_mismatch, state_mismatch, apply_mask, hsa, hda, hz, ha, hb, ACTION_ACCEPT,
          ACTION_DROP]
    · have h17b : ¬ (17 : Int) = proto := fun h => h17 h.symm
      simp [check_packet, h8, check_packet_loop, init_rule_list, catch_all_drop, rule_match,
        proto_mismatch, src_ip_mismatch, dst_ip_mismatch, src_port_mismatch, dst_port_mismatch,
        state_mismatch, apply_mask, hsa, hda, hz, h6, h6b, h17, h17b, ACTION_DROP]

set_option maxRecDepth 4000 in
/-- C20. For the built-in table of the extended variant (`init_rules` of
`iptables_rules.c`, 8 rules) and every packet with 32-bit addresses,
`check_packet` returns ACCEPT if and only if (proto = 6 or proto = 17) and
`src_ip = 0` and `dst_ip = 0`, and DROP otherwise, independently of the ports
and of the connection state; the default test packet of `main`
(`src_ip=3232235876, dst_ip=0, src_port=1024, dst_port=80, proto=6`) is
dropped. -/
theorem builtin_table_verdict (current_state : Nat → Nat)
    (src_ip dst_ip src_port dst_port : Nat) (proto : Int)
    (hs : src_ip < 2 ^ 32) (hd : dst_ip < 2 ^ 32) :
    (check_packet (init_rules globals_start).rules (init_rules globals_start).rules_count
        current_state src_ip dst_ip src_port dst_port proto = some ACTION_ACCEPT ↔
      ((proto = 6 ∨ proto = 17) ∧ src_ip = 0 ∧ dst_ip = 0)) ∧
    (check_packet (init_rules globals_start).rules (init_rules globals_start).rules_count
        current_state src_ip dst_ip src_port dst_port proto = some ACTION_DROP ↔
      ¬ ((proto = 6 ∨ proto = 17) ∧ src_ip = 0 ∧ dst_ip = 0)) ∧
    main = some ACTION_DROP := by
  have hres : check_packet (init_rules globals_start).rules
      (init_rules globals_start).rules_count current_state
      src_ip dst_ip src_port dst_port proto =
      if (proto = 6 ∨ proto = 17) ∧ src_ip = 0 ∧ dst_ip = 0 then some ACTION_ACCEPT
      else some ACTION_DROP := by
    rw [← check_packet_init_rule_list current_state src_ip dst_ip src_port dst_port proto hs hd,
      init_rules_first_entries.1]
    unfold check_packet
    exact check_packet_loop_congr _ _ current_state src_ip dst_ip src_port dst_port proto _ 0
      (fun j _ hj => init_rules_first_entries.2 j (by
        have h8 : (8 : Int).toNat = 8 := rfl
        omega))
  refine ⟨?_, ?_, by decide⟩
  · rw [hres]
    by_cases h : (proto = 6 ∨ proto = 17) ∧ src_ip = 0 ∧ dst_ip = 0
    · simp [h]
    · simp [h, ACTION_ACCEPT, ACTION_DROP]
  · rw [hres]
    by_cases h : (proto = 6 ∨ proto = 17) ∧ src_ip = 0 ∧ dst_ip = 0
    · simp [h, ACTION_ACCEPT, ACTION_DROP]
    · simp [h]

/-- Witness for C20: the packet `{src=0, dst=0, sport=1024, dport=80, TCP}` is
accepted by the built-in table. -/
theorem builtin_table_verdict_witness :
    ((0 : Nat) < 2 ^ 32) ∧
    check_packet (init_rules globals_start).rules (init_rules globals_start).rules_count
      plain_state 0 0 1024 80 6 = some ACTION_ACCEPT :=
  ⟨by decide,
    ((builtin_table_verdict plain_state 0 0 1024 80 6 (by decide) (by decide)).1).mpr
      ⟨Or.inl rfl, rfl, rfl⟩⟩

end iptables_rules

/-! ## The built-in table of the simple variant (C21) -/

namespace test_rules

/-- The loop reads only the entries from `i` to `i + n - 1`: two arrays that
agree there give the same result. -/
theorem simple_check_packet_loop_congr (l1 l2 : List ipt_rule_t)
    (src_ip dst_ip src_port dst_port : Nat) (proto : Int) :
    ∀ (n i : Nat), (∀ (j : Nat), i ≤ j → j < i + n → l1[j]? = l2[j]?) →
      check_packet_loop l1 src_ip dst_ip src_port dst_port proto n i =
        check_packet_loop l2 src_ip dst_ip src_port dst_port proto n i := by
  intro n
  induction n with
  | zero => intro i _; rfl
  | succ n ih =>
    intro i hagree
    have hi := hagree i (Nat.le_refl i) (by omega)
    have hrec := ih (i + 1) (fun j h1 h2 => hagree j (by omega) (by omega))
    unfold check_packet_loop
    rw [hi, hrec]

set_option maxRecDepth 8000 in
/-- The first seventeen entries of the table of `init_rules` are its seventeen
literal rules. -/
theorem simple_init_rules_first_entries :
    (init_rules globals_start).rules_count = 17 ∧
    ∀ (j : Nat), j < 17 → (init_rules globals_start).rules[j]? = init_rule_list[j]? := by
  decide

/-- The verdict of the seventeen literal rules of `init_rules`. -/
theorem simple_check_packet_init_rule_list
    (src_ip dst_ip src_port dst_port : Nat) (proto : Int) :
    check_packet init_rule_list 17 src_ip dst_ip src_port dst_port proto =
      if (proto = 6 ∧ (dst_port = 22 ∨ dst_port = 80 ∨ dst_port = 443 ∨ dst_port = 30033 ∨
          dst_port = 13001)) ∨ (proto = 17 ∧ dst_port = 9987)
      then some ACTION_ACCEPT else some ACTION_DROP := by
  have h17 : (17 : Int).toNat = 17 := rfl
  by_cases h6 : proto = 6
  · subst h6
    by_cases d1 : dst_port = 22
    · subst d1
      simp [check_packet, h17, check_packet_loop, init_rule_list, rule_match, proto_mismatch,
        src_ip_mismatch, dst_ip_mismatch, src_port_mismatch, dst_port_mismatch, ACTION_ACCEPT]
    · have e1 : ¬ 22 = dst_port := fun h => d1 h.symm
      by_cases d2 : dst_port = 80
      · subst d2
        simp [check_packet, h17, check_packet_loop, init_rule_list, rule_match, proto_mismatch,
          src_ip_mismatch, dst_ip_mismatch, src_port_mismatch, dst_port_mismatch, ACTION_ACCEPT]
      · have e2 : ¬ 80 = dst_port := fun h => d2 h.symm
        by_cases d3 : dst_port = 443
        · subst d3
          simp [check_packet, h17, check_packet_loop, init_rule_list, rule_match,
            proto_mismatch, src_ip_mismatch, dst_ip_mismatch, src_port_mismatch,
            dst_port_mismatch, ACTION_ACCEPT]
        · have e3 : ¬ 443 = dst_port := fun h => d3 h.symm
          by_cases d4 : dst_port = 30033
          · subst d4
            simp [check_packet, h17, check_packet_loop, init_rule_list, rule_match,
              proto_mismatch, src_ip_mismatch, dst_ip_mismatch, src_port_mismatch,
              dst_port_mismatch, ACTION_ACCEPT]
          · have e4 : ¬ 30033 = dst_port := fun h => d4 h.symm
            by_cases d5 : dst_port = 13001
            · subst d5
              simp [check_packet, h17, check_packet_loop, init_rule_list, rule_match,
                proto_mismatch, src_ip_mismatch, dst_ip_mismatch, src_port_mismatch,
                dst_port_mismatch, ACTION_ACCEPT]
            · have e5 : ¬ 13001 = dst_port := fun h => d5 h.symm
              simp [check_packet, h17, check_packet_loop, init_rule_list, rule_match,
                proto_mismatch, src_ip_mismatch, dst_ip_mismatch, src_port_mismatch,
                dst_port_mismatch, ACTION_DROP, d1, d2, d3, d4, d5, e1, e2, e3, e4, e5]
  · have h6b : ¬ (6 : Int) = proto := fun h => h6 h.symm
    by_cases hu : proto = 17
    · subst hu
      by_cases d1 : dst_port = 9987
      · subst d1
        simp [check_packet, h17, check_packet_loop, init_rule_list, rule_match, proto_mismatch,
          src_ip_mismatch, dst_ip_mismatch, src_port_mismatch, dst_port_mismatch, ACTION_ACCEPT]
      · have e1 : ¬ 9987 = dst_port := fun h => d1 h.symm
        simp [check_packet, h17, check_packet_loop, init_rule_list, rule_match, proto_mismatch,
          src_ip_mismatch, dst_ip_mismatch, src_port_mismatch, dst_port_mismatch, ACTION_DROP,
          d1, e1]
    · have hub : ¬ (17 : Int) = proto := fun h => hu h.symm
      simp [check_packet, h17, check_packet_loop, init_rule_list, rule_match, proto_mismatch,
        src_ip_mismatch, dst_ip_mismatch, src_port_mismatch, dst_port_mismatch, ACTION_DROP,
        h6, h6b, hu, hub]

end test_rules

namespace test_rules

set_option maxRecDepth 8000 in
/-- C21. For the built-in table of the simple variant (`init_rules` of
`test_rules.c`, 17 rules) `check_packet` returns ACCEPT if and only if
(proto = 6 and `dst_port` is one of 22, 80, 443, 30033, 13001) or (proto = 17
and `dst_port` = 9987), and DROP otherwise, independently of `src_ip`, `dst_ip`
and `src_port`. The verdict is always the action of a matching rule at an index
up to 7: rules 8 to 16 sit after the catch-all DROP and never decide. The packet
`{proto=17, dst_ip=2886795265, dst_port=4500}` is dropped although rule 13
matches it with action ACCEPT, and the default test packet of `main` is
accepted. -/
theorem simple_builtin_table_verdict :
    (∀ (src_ip dst_ip src_port dst_port : Nat) (proto : Int),
      (check_packet (init_rules globals_start).rules (init_rules globals_start).rules_count
          src_ip dst_ip src_port dst_port proto = some ACTION_ACCEPT ↔
        ((proto = 6 ∧ (dst_port = 22 ∨ dst_port = 80 ∨ dst_port = 443 ∨ dst_port = 30033 ∨
            dst_port = 13001)) ∨ (proto = 17 ∧ dst_port = 9987))) ∧
      (check_packet (init_rules globals_start).rules (init_rules globals_start).rules_count
          src_ip dst_ip src_port dst_port proto = some ACTION_DROP ↔
        ¬ ((proto = 6 ∧ (dst_port = 22 ∨ dst_port = 80 ∨ dst_port = 443 ∨ dst_port = 30033 ∨
            dst_port = 13001)) ∨ (proto = 17 ∧ dst_port = 9987))) ∧
      (∃ (j : Nat) (rj : ipt_rule_t), j ≤ 7 ∧ (init_rules globals_start).rules[j]? = some rj ∧
        rule_match rj src_ip dst_ip src_port dst_port proto = true ∧
        check_packet (init_rules globals_start).rules (init_rules globals_start).rules_count
          src_ip dst_ip src_port dst_port proto = some rj.action)) ∧
    (∀ (src_ip src_port : Nat),
      check_packet (init_rules globals_start).rules (init_rules globals_start).rules_count
        src_ip 2886795265 src_port 4500 17 = some ACTION_DROP ∧
      rule_match simple_ipsec_rule src_ip 2886795265 src_port 4500 17 = true) ∧
    (init_rules globals_start).rules[13]? = some simple_ipsec_rule ∧
    simple_ipsec_rule.action = ACTION_ACCEPT ∧
    main = some ACTION_ACCEPT := by
  have hres : ∀ (a b c d : Nat) (p : Int),
      check_packet (init_rules globals_start).rules (init_rules globals_start).rules_count
        a b c d p =
      if (p = 6 ∧ (d = 22 ∨ d = 80 ∨ d = 443 ∨ d = 30033 ∨ d = 13001)) ∨ (p = 17 ∧ d = 9987)
      then some ACTION_ACCEPT else some ACTION_DROP := by
    intro a b c d p
    rw [← simple_check_packet_init_rule_list a b c d p, simple_init_rules_first_entries.1]
    unfold check_packet
    exact simple_check_packet_loop_congr _ _ a b c d p _ 0
      (fun j _ hj => simple_init_rules_first_entries.2 j (by
        have h17 : (17 : Int).toNat = 17 := rfl
        omega))
  have h7 : (init_rules globals_start).rules[7]? = some simple_catch_all_drop := by decide
  refine ⟨?_, ?_, by decide, rfl, by decide⟩
  · intro a b c d p
    refine ⟨?_, ?_, ?_⟩
    · rw [hres]
      by_cases h : (p = 6 ∧ (d = 22 ∨ d = 80 ∨ d = 443 ∨ d = 30033 ∨ d = 13001)) ∨
          (p = 17 ∧ d = 9987)
      · simp [h]
      · simp [h, ACTION_ACCEPT, ACTION_DROP]
    · rw [hres]
      by_cases h : (p = 6 ∧ (d = 22 ∨ d = 80 ∨ d = 443 ∨ d = 30033 ∨ d = 13001)) ∨
          (p = 17 ∧ d = 9987)
      · simp [h, ACTION_ACCEPT, ACTION_DROP]
      · simp [h]
    · have hm : rule_match simple_catch_all_drop a b c d p = true := by
        simp [rule_match, proto_mismatch, src_ip_mismatch, dst_ip_mismatch, src_port_mismatch,
          dst_port_mismatch, simple_catch_all_drop]
      obtain ⟨j, rj, hj7, hj, hmj, hfirst⟩ :=
        simple_exists_first_match _ a b c d p 7 simple_catch_all_drop h7 hm
      refine ⟨j, rj, hj7, hj, hmj, ?_⟩
      rw [simple_init_rules_first_entries.1]
      unfold check_packet
      have h17 : (17 : Int).toNat = 17 := rfl
      exact simple_check_packet_loop_first _ a b c d p j rj hj hmj _ 0 (Nat.zero_le j)
        (by omega) (fun i ri _ h2 h3 => hfirst i ri h2 h3)
  · intro a c
    constructor
    · rw [hres]
      simp
    · simp [rule_match, proto_mismatch, src_ip_mismatch, dst_ip_mismatch, src_port_mismatch,
        dst_port_mismatch, simple_ipsec_rule]

end test_rules

/-! ## Inverted ranges and fail-closed verdicts (C22, C23) -/

namespace iptables_rules

/-- C22. With no build-time validation, an inverted port range silently
disables a rule: a rule whose `src_port` is nonzero and greater than
`src_port_high` (or whose `dst_port` is nonzero and greater than
`dst_port_high`, the case high = 0 included) fails its port check for every
port, so it matches no packet and the scan always moves on to the next rule. -/
theorem inverted_range_never_matches :
    (∀ (r : ipt_rule_t) (src_port : Nat), r.src_port ≠ 0 → r.src_port_high < r.src_port →
      src_port_mismatch r src_port = true) ∧
    (∀ (r : ipt_rule_t) (dst_port : Nat), r.dst_port ≠ 0 → r.dst_port_high < r.dst_port →
      dst_port_mismatch r dst_port = true) ∧
    (∀ (r : ipt_rule_t) (state src_ip dst_ip src_port dst_port : Nat) (proto : Int),
      (r.src_port ≠ 0 ∧ r.src_port_high < r.src_port) ∨
        (r.dst_port ≠ 0 ∧ r.dst_port_high < r.dst_port) →
      rule_match r state src_ip dst_ip src_port dst_port proto = false) ∧
    (∀ (rules : List ipt_rule_t) (current_state : Nat → Nat)
        (src_ip dst_ip src_port dst_port : Nat) (proto : Int) (n i : Nat) (r : ipt_rule_t),
      rules[i]? = some r →
      (r.src_port ≠ 0 ∧ r.src_port_high < r.src_port) ∨
        (r.dst_port ≠ 0 ∧ r.dst_port_high < r.dst_port) →
      check_packet_loop rules current_state src_ip dst_ip src_port dst_port proto (n + 1) i =
        check_packet_loop rules current_state src_ip dst_ip src_port dst_port proto n
          (i + 1)) := by
  have hsrc : ∀ (r : ipt_rule_t) (src_port : Nat), r.src_port ≠ 0 →
      r.src_port_high < r.src_port → src_port_mismatch r src_port = true := by
    intro r c h0 hinv
    by_contra hne
    have hf : src_port_mismatch r c = false := by simpa using hne
    rw [src_port_mismatch_eq_false] at hf
    omega
  have hdst : ∀ (r : ipt_rule_t) (dst_port : Nat), r.dst_port ≠ 0 →
      r.dst_port_high < r.dst_port → dst_port_mismatch r dst_port = true := by
    intro r c h0 hinv
    by_contra hne
    have hf : dst_port_mismatch r c = false := by simpa using hne
    rw [dst_port_mismatch_eq_false] at hf
    omega
  have hflag : ∀ (r : ipt_rule_t) (state src_ip dst_ip src_port dst_port : Nat) (proto : Int),
      (r.src_port ≠ 0 ∧ r.src_port_high < r.src_port) ∨
        (r.dst_port ≠ 0 ∧ r.dst_port_high < r.dst_port) →
      rule_match r state src_ip dst_ip src_port dst_port proto = false := by
    intro r s a b c d p h
    by_contra hne
    have ht : rule_match r s a b c d p = true := by simpa using hne
    rw [rule_match_eq_true_iff_no_mismatch] at ht
    obtain ⟨_, _, _, h4, h5, _⟩ := ht
    rcases h with ⟨h0, hinv⟩ | ⟨h0, hinv⟩
    · rw [hsrc r c h0 hinv] at h4
      exact absurd h4 (by decide)
    · rw [hdst r d h0 hinv] at h5
      exact absurd h5 (by decide)
  refine ⟨hsrc, hdst, hflag, ?_⟩
  intro rules cs a b c d p n i r hr h
  simp [check_packet_loop, hr, hflag r (cs i) a b c d p h]

/-- Witness for C22: the rule `{sport_low=100, sport_high=50}` of scenario 5
does not match a packet with source port 75, nor any other. -/
theorem inverted_range_never_matches_witness :
    (scenario_inverted_rule.src_port ≠ 0 ∧
      scenario_inverted_rule.src_port_high < scenario_inverted_rule.src_port) ∧
    rule_match scenario_inverted_rule STATE_NEW 3232235876 0 75 80 6 = false :=
  ⟨by decide,
    inverted_range_never_matches.2.2.1 scenario_inverted_rule STATE_NEW 3232235876 0 75 80 6
      (Or.inl (by decide))⟩

/-- A value returned by the loop is the default or the action of a matching
rule of the scan. -/
theorem check_packet_loop_source (rules : List ipt_rule_t) (cs : Nat → Nat)
    (src_ip dst_ip src_port dst_port : Nat) (proto : Int) (v : Int) :
    ∀ (n i : Nat),
      check_packet_loop rules cs src_ip dst_ip src_port dst_port proto n i = some v →
      v = ACTION_DROP ∨
      ∃ (k : Nat) (r : ipt_rule_t), i ≤ k ∧ k < i + n ∧ rules[k]? = some r ∧
        rule_match r (cs k) src_ip dst_ip src_port dst_port proto = true ∧ r.action = v := by
  intro n
  induction n with
  | zero =>
    intro i h
    simp only [check_packet_loop, Option.some.injEq] at h
    exact Or.inl h.symm
  | succ n ih =>
    intro i h
    unfold check_packet_loop at h
    cases hri : rules[i]? with
    | none =>
      rw [hri] at h
      exact absurd h (by simp)
    | some r =>
      rw [hri] at h
      by_cases hm : rule_match r (cs i) src_ip dst_ip src_port dst_port proto = true
      · simp only [hm, if_true, Option.some.injEq] at h
        exact Or.inr ⟨i, r, Nat.le_refl i, by omega, hri, hm, h⟩
      · simp only [hm, Bool.false_eq_true, if_false] at h
        rcases ih (i + 1) h with h0 | ⟨k, rk, h1, h2, h3, h4, h5⟩
        · exact Or.inl h0
        · exact Or.inr ⟨k, rk, by omega, by omega, h3, h4, h5⟩

end iptables_rules

namespace test_rules

/-- A value returned by the loop is the default or the action of a matching
rule of the scan. -/
theorem simple_check_packet_loop_source (rules : List ipt_rule_t)
    (src_ip dst_ip src_port dst_port : Nat) (proto : Int) (v : Int) :
    ∀ (n i : Nat),
      check_packet_loop rules src_ip dst_ip src_port dst_port proto n i = some v →
      v = ACTION_DROP ∨
      ∃ (k : Nat) (r : ipt_rule_t), i ≤ k ∧ k < i + n ∧ rules[k]? = some r ∧
        rule_match r src_ip dst_ip src_port dst_port proto = true ∧ r.action = v := by
  intro n
  induction n with
  | zero =>
    intro i h
    simp only [check_packet_loop, Option.some.injEq] at h
    exact Or.inl h.symm
  | succ n ih =>
    intro i h
    unfold check_packet_loop at h
    cases hri : rules[i]? with
    | none =>
      rw [hri] at h
      exact absurd h (by simp)
    | some r =>
      rw [hri] at h
      by_cases hm : rule_match r src_ip dst_ip src_port dst_port proto = true
      · simp only [hm, if_true, Option.some.injEq] at h
        exact Or.inr ⟨i, r, Nat.le_refl i, by omega, hri, hm, h⟩
      · simp only [hm, Bool.false_eq_true, if_false] at h
        rcases ih (i + 1) h with h0 | ⟨k, rk, h1, h2, h3, h4, h5⟩
        · exact Or.inl h0
        · exact Or.inr ⟨k, rk, by omega, by omega, h3, h4, h5⟩

end test_rules

/-- C23. Fail-closed, in both variants: if `check_packet` returns
`ACTION_ACCEPT` then some rule at an index below `rules_count` has action
ACCEPT and matches the packet. Hence a table, with `rules_count` within the
array, whose rules below `rules_count` all have action DROP yields DROP for
every packet, and so does the empty table. -/
theorem check_packet_fail_closed :
    (∀ (rules : List iptables_rules.ipt_rule_t) (rules_count : Int) (current_state : Nat → Nat)
        (src_ip dst_ip src_port dst_port : Nat) (proto : Int),
      iptables_rules.check_packet rules rules_count current_state
        src_ip dst_ip src_port dst_port proto = some ACTION_ACCEPT →
      ∃ (k : Nat) (r : iptables_rules.ipt_rule_t), (k : Int) < rules_count ∧
        rules[k]? = some r ∧ r.action = ACTION_ACCEPT ∧
        iptables_rules.all_predicates_pass r (current_state k)
          src_ip dst_ip src_port dst_port proto) ∧
    (∀ (rules : List test_rules.ipt_rule_t) (rules_count : Int)
        (src_ip dst_ip src_port dst_port : Nat) (proto : Int),
      test_rules.check_packet rules rules_count src_ip dst_ip src_port dst_port proto =
        some ACTION_ACCEPT →
      ∃ (k : Nat) (r : test_rules.ipt_rule_t), (k : Int) < rules_count ∧
        rules[k]? = some r ∧ r.action = ACTION_ACCEPT ∧
        test_rules.all_fields_pass r src_ip dst_ip src_port dst_port proto) ∧
    (∀ (rules : List iptables_rules.ipt_rule_t) (rules_count : Int) (current_state : Nat → Nat)
        (src_ip dst_ip src_port dst_port : Nat) (proto : Int),
      rules_count ≤ (rules.length : Int) →
      (∀ (j : Nat) (rj : iptables_rules.ipt_rule_t), (j : Int) < rules_count →
        rules[j]? = some rj → rj.action = ACTION_DROP) →
      iptables_rules.check_packet rules rules_count current_state
        src_ip dst_ip src_port dst_port proto = some ACTION_DROP) ∧
    (∀ (rules : List test_rules.ipt_rule_t) (rules_count : Int)
        (src_ip dst_ip src_port dst_port : Nat) (proto : Int),
      rules_count ≤ (rules.length : Int) →
      (∀ (j : Nat) (rj : test_rules.ipt_rule_t), (j : Int) < rules_count →
        rules[j]? = some rj → rj.action = ACTION_DROP) →
      test_rules.check_packet rules rules_count src_ip dst_ip src_port dst_port proto =
        some ACTION_DROP) ∧
    (∀ (rules : List iptables_rules.ipt_rule_t) (current_state : Nat → Nat)
        (src_ip dst_ip src_port dst_port : Nat) (proto : Int),
      iptables_rules.check_packet rules 0 current_state
        src_ip dst_ip src_port dst_port proto = some ACTION_DROP) ∧
    (∀ (rules : List test_rules.ipt_rule_t) (src_ip dst_ip src_port dst_port : Nat)
        (proto : Int),
      test_rules.check_packet rules 0 src_ip dst_ip src_port dst_port proto =
        some ACTION_DROP) := by
  have hne : ACTION_ACCEPT ≠ ACTION_DROP := by decide
  refine ⟨?_, ?_, ?_, ?_, ?_, ?_⟩
  · intro rules rules_count cs a b c d p h
    unfold iptables_rules.check_packet at h
    rcases iptables_rules.check_packet_loop_source rules cs a b c d p ACTION_ACCEPT _ 0 h with
      h0 | ⟨k, r, _, hk, hr, hm, hact⟩
    · exact absurd h0 hne
    · exact ⟨k, r, by omega, hr, hact, (iptables_rules.rule_match_eq_true _ _ _ _ _ _ _).mp hm⟩
  · intro rules rules_count a b c d p h
    unfold test_rules.check_packet at h
    rcases test_rules.simple_check_packet_loop_source rules a b c d p ACTION_ACCEPT _ 0 h with
      h0 | ⟨k, r, _, hk, hr, hm, hact⟩
    · exact absurd h0 hne
    · exact ⟨k, r, by omega, hr, hact, (test_rules.simple_rule_match_eq_true _ _ _ _ _ _).mp hm⟩
  · intro rules rules_count cs a b c d p hcap hall
    rcases iptables_rules.check_packet_cases rules rules_count cs a b c d p hcap with
      ⟨_, hres⟩ | ⟨k, r, hk, hr, _, _, hres⟩
    · exact hres
    · rw [hres, hall k r hk hr]
  · intro rules rules_count a b c d p hcap hall
    rcases test_rules.simple_check_packet_cases rules rules_count a b c d p hcap with
      ⟨_, hres⟩ | ⟨k, r, hk, hr, _, _, hres⟩
    · exact hres
    · rw [hres, hall k r hk hr]
  · intro rules cs a b c d p
    rfl
  · intro rules a b c d p
    rfl

/-- Witness for C23: the table `[TCP dport 22 ACCEPT, catch-all DROP]` accepts the
packet `{TCP, dport=22}`, so a rule with action ACCEPT matches it. -/
theorem check_packet_fail_closed_witness :
    iptables_rules.check_packet [iptables_rules.scenario_ssh_rule, iptables_rules.catch_all_drop]
        2 iptables_rules.plain_state 3232235876 0 1024 22 6 = some ACTION_ACCEPT ∧
    ∃ (k : Nat) (r : iptables_rules.ipt_rule_t), (k : Int) < 2 ∧
      ([iptables_rules.scenario_ssh_rule, iptables_rules.catch_all_drop] :
        List iptables_rules.ipt_rule_t)[k]? = some r ∧ r.action = ACTION_ACCEPT ∧
      iptables_rules.all_predicates_pass r (iptables_rules.plain_state k)
        3232235876 0 1024 22 6 :=
  ⟨by decide,
    check_packet_fail_closed.1 [iptables_rules.scenario_ssh_rule, iptables_rules.catch_all_drop]
      2 iptables_rules.plain_state 3232235876 0 1024 22 6 (by decide)⟩

/-! ## Concatenation of chains (C24) -/

namespace iptables_rules

/-- The scan moves past a run of `m` rules none of which matches. -/
theorem check_packet_loop_skip (rules : List ipt_rule_t) (cs : Nat → Nat)
    (src_ip dst_ip src_port dst_port : Nat) (proto : Int) (n : Nat) :
    ∀ (m i : Nat),
      (∀ (j : Nat), i ≤ j → j < i + m → ∃ r, rules[j]? = some r ∧
        rule_match r (cs j) src_ip dst_ip src_port dst_port proto = false) →
      check_packet_loop rules cs src_ip dst_ip src_port dst_port proto (m + n) i =
        check_packet_loop rules cs src_ip dst_ip src_port dst_port proto n (i + m) := by
  intro m
  induction m with
  | zero =>
    intro i _
    simp
  | succ m ih =>
    intro i hall
    obtain ⟨r, hr, hm⟩ := hall i (Nat.le_refl i) (by omega)
    have hrec := ih (i + 1) (fun j h1 h2 => hall j (by omega) (by omega))
    rw [show m + 1 + n = (m + n) + 1 by omega]
    simp only [check_packet_loop, hr, hm, Bool.false_eq_true, if_false]
    rw [hrec, show i + 1 + m = i + (m + 1) by omega]

/-- The scan of `T1 ++ T2` from the first entry of `T2` on is the scan of `T2`,
the connection state of iteration `|T1| + j` serving iteration `j`. -/
theorem check_packet_loop_append_right (T1 T2 : List ipt_rule_t) (cs : Nat → Nat)
    (src_ip dst_ip src_port dst_port : Nat) (proto : Int) :
    ∀ (n i : Nat),
      check_packet_loop (T1 ++ T2) cs src_ip dst_ip src_port dst_port proto n (T1.length + i) =
        check_packet_loop T2 (fun j => cs (T1.length + j))
          src_ip dst_ip src_port dst_port proto n i := by
  intro n
  induction n with
  | zero => intro i; rfl
  | succ n ih =>
    intro i
    have hget : (T1 ++ T2)[T1.length + i]? = T2[i]? := by
      rw [List.getElem?_append_right (by omega)]
      congr 1
      omega
    have hrec := ih (i + 1)
    unfold check_packet_loop
    rw [hget, show T1.length + i + 1 = T1.length + (i + 1) by omega, hrec]

end iptables_rules

namespace iptables_rules

/-- C24. Chain concatenation law: for all rule sequences `T1` and `T2` and every
packet, `check_packet` on `T1` followed by `T2` equals `check_packet` on `T1`
alone when some rule of `T1` matches the packet, and equals `check_packet` on
`T2` alone otherwise (rule `j` of `T2` being evaluated on the connection state
of iteration `|T1| + j`, which for a packet-wide state is the same state); so
rules appended after a table can only change the verdicts of packets that no
existing rule matches. -/
theorem check_packet_append (T1 T2 : List ipt_rule_t) (current_state : Nat → Nat)
    (src_ip dst_ip src_port dst_port : Nat) (proto : Int) :
    ((∃ (k : Nat) (r : ipt_rule_t), T1[k]? = some r ∧
        all_predicates_pass r (current_state k) src_ip dst_ip src_port dst_port proto) →
      check_packet (T1 ++ T2) ((T1.length + T2.length : Nat) : Int) current_state
          src_ip dst_ip src_port dst_port proto =
        check_packet T1 (T1.length : Int) current_state
          src_ip dst_ip src_port dst_port proto) ∧
    ((¬ ∃ (k : Nat) (r : ipt_rule_t), T1[k]? = some r ∧
        all_predicates_pass r (current_state k) src_ip dst_ip src_port dst_port proto) →
      check_packet (T1 ++ T2) ((T1.length + T2.length : Nat) : Int) current_state
          src_ip dst_ip src_port dst_port proto =
        check_packet T2 (T2.length : Int) (fun j => current_state (T1.length + j))
          src_ip dst_ip src_port dst_port proto) ∧
    (∀ (s : Nat),
      (¬ ∃ (r : ipt_rule_t), r ∈ T1 ∧
        all_predicates_pass r s src_ip dst_ip src_port dst_port proto) →
      check_packet (T1 ++ T2) ((T1.length + T2.length : Nat) : Int) (fun _ => s)
          src_ip dst_ip src_port dst_port proto =
        check_packet T2 (T2.length : Int) (fun _ => s)
          src_ip dst_ip src_port dst_port proto) := by
  have hc12 : (((T1.length + T2.length : Nat) : Int)).toNat = T1.length + T2.length := by
    omega
  have hc1 : ((T1.length : Nat) : Int).toNat = T1.length := by omega
  have hc2 : ((T2.length : Nat) : Int).toNat = T2.length := by omega
  have hright : ∀ (cs : Nat → Nat),
      (∀ (k : Nat) (r : ipt_rule_t), T1[k]? = some r →
        rule_match r (cs k) src_ip dst_ip src_port dst_port proto = false) →
      check_packet (T1 ++ T2) ((T1.length + T2.length : Nat) : Int) cs
          src_ip dst_ip src_port dst_port proto =
        check_packet T2 (T2.length : Int) (fun j => cs (T1.length + j))
          src_ip dst_ip src_port dst_port proto := by
    intro cs hnone
    unfold check_packet
    rw [hc12, hc2]
    have hskip := check_packet_loop_skip (T1 ++ T2) cs src_ip dst_ip src_port dst_port proto
      T2.length T1.length 0 (by
        intro j _ hj
        have hjl : j < T1.length := by omega
        have hget : (T1 ++ T2)[j]? = some T1[j] := by
          rw [List.getElem?_append_left hjl]
          exact List.getElem?_eq_getElem hjl
        exact ⟨T1[j], hget, hnone j T1[j] (List.getElem?_eq_getElem hjl)⟩)
    rw [hskip, Nat.zero_add]
    have := check_packet_loop_append_right T1 T2 cs src_ip dst_ip src_port dst_port proto
      T2.length 0
    rw [Nat.add_zero] at this
    exact this
  refine ⟨?_, ?_, ?_⟩
  · rintro ⟨k, r, hk, hpass⟩
    have hm := (rule_match_eq_true _ _ _ _ _ _ _).mpr hpass
    obtain ⟨j, rj, hjk, hj, hmj, hfirst⟩ :=
      exists_first_match T1 current_state src_ip dst_ip src_port dst_port proto k r hk hm
    have hjl : j < T1.length := (List.getElem?_eq_some.mp hj).1
    have h1 : check_packet T1 (T1.length : Int) current_state
        src_ip dst_ip src_port dst_port proto = some rj.action := by
      unfold check_packet
      rw [hc1]
      exact check_packet_loop_first T1 current_state src_ip dst_ip src_port dst_port proto j rj
        hj hmj _ 0 (Nat.zero_le j) (by omega) (fun i ri _ h2 h3 => hfirst i ri h2 h3)
    have h12 : check_packet (T1 ++ T2) ((T1.length + T2.length : Nat) : Int) current_state
        src_ip dst_ip src_port dst_port proto = some rj.action := by
      unfold check_packet
      rw [hc12]
      refine check_packet_loop_first (T1 ++ T2) current_state
        src_ip dst_ip src_port dst_port proto j rj ?_ hmj _ 0 (Nat.zero_le j) (by omega) ?_
      · rw [List.getElem?_append_left hjl]
        exact hj
      · intro i ri _ h2 h3
        rw [List.getElem?_append_left (by omega)] at h3
        exact hfirst i ri h2 h3
    rw [h1, h12]
  · intro hno
    apply hright current_state
    intro k r hk
    rw [rule_match_eq_false]
    intro hpass
    exact hno ⟨k, r, hk, hpass⟩
  · intro s hno
    apply hright (fun _ => s)
    intro k r hk
    rw [rule_match_eq_false]
    intro hpass
    exact hno ⟨r, List.getElem?_mem hk, hpass⟩

/-- Witness for C24: `T1 = [TCP dport 22 ACCEPT]`, `T2 = [catch-all DROP]`; the
packet `{TCP, dport=22}` matches a rule of `T1` and keeps the verdict of `T1`. -/
theorem check_packet_append_witness :
    (∃ (k : Nat) (r : ipt_rule_t), ([scenario_ssh_rule] : List ipt_rule_t)[k]? = some r ∧
      all_predicates_pass r (plain_state k) 3232235876 0 1024 22 6) ∧
    check_packet ([scenario_ssh_rule] ++ [catch_all_drop])
        ((([scenario_ssh_rule] : List ipt_rule_t).length +
          ([catch_all_drop] : List ipt_rule_t).length : Nat) : Int)
        plain_state 3232235876 0 1024 22 6 =
      check_packet [scenario_ssh_rule] (([scenario_ssh_rule] : List ipt_rule_t).length : Int)
        plain_state 3232235876 0 1024 22 6 :=
  ⟨⟨0, scenario_ssh_rule, rfl, by decide⟩,
    (check_packet_append [scenario_ssh_rule] [catch_all_drop] plain_state
      3232235876 0 1024 22 6).1 ⟨0, scenario_ssh_rule, rfl, by decide⟩⟩

end iptables_rules

/-! ## The exact embedding of the simple matcher (C25) -/

namespace iptables_rules

/-- The address predicate under the mask chosen by `embed_exact`: 0 for the
address 0, all-ones otherwise. -/
theorem exact_mask_predicate (rule_ip pkt_ip : Nat) (hr : rule_ip < 2 ^ 32)
    (hp : pkt_ip < 2 ^ 32) :
    ((if rule_ip = 0 then 0 else 0xFFFFFFFF) = 0 ∨
      pkt_ip &&& (if rule_ip = 0 then 0 else 0xFFFFFFFF) =
        rule_ip &&& (if rule_ip = 0 then 0 else 0xFFFFFFFF)) ↔
    (rule_ip = 0 ∨ rule_ip = pkt_ip) := by
  by_cases h0 : rule_ip = 0
  · simp [h0]
  · rw [if_neg h0, and_all_ones _ hr, and_all_ones _ hp]
    constructor
    · rintro (h | h)
      · exact absurd h (by decide)
      · exact Or.inr h.symm
    · rintro (h | h)
      · exact absurd h h0
      · exact Or.inr h.symm

/-- A collapsed port range `[low, low]` with the zero-low wildcard is the simple
matcher's port predicate. -/
theorem collapsed_range_predicate (low port : Nat) :
    (low = 0 ∨ (low ≤ port ∧ port ≤ low)) ↔ (low = 0 ∨ low = port) := by
  constructor
  · rintro (h | ⟨h1, h2⟩)
    · exact Or.inl h
    · exact Or.inr (Nat.le_antisymm h1 h2)
  · rintro (h | h)
    · exact Or.inl h
    · exact Or.inr ⟨Nat.le_of_eq h, Nat.le_of_eq h.symm⟩

/-- The flag `match` of an exactly embedded rule is the flag of the simple
rule. -/
theorem rule_match_embed_exact (r : test_rules.ipt_rule_t) (state : Nat)
    (src_ip dst_ip src_port dst_port : Nat) (proto : Int)
    (hs : src_ip < 2 ^ 32) (hd : dst_ip < 2 ^ 32)
    (hrs : r.src_ip < 2 ^ 32) (hrd : r.dst_ip < 2 ^ 32) :
    rule_match (embed_exact r) state src_ip dst_ip src_port dst_port proto =
      test_rules.rule_match r src_ip dst_ip src_port dst_port proto := by
  rw [Bool.eq_iff_iff, rule_match_eq_true, test_rules.simple_rule_match_eq_true]
  unfold all_predicates_pass test_rules.all_fields_pass
  have e1 := exact_mask_predicate r.src_ip src_ip hrs hs
  have e2 := exact_mask_predicate r.dst_ip dst_ip hrd hd
  have e3 := collapsed_range_predicate r.src_port src_port
  have e4 := collapsed_range_predicate r.dst_port dst_port
  constructor
  · rintro ⟨h1, h2, h3, h4, h5, _⟩
    exact ⟨h1, e1.mp h2, e2.mp h3, e3.mp h4, e4.mp h5⟩
  · rintro ⟨h1, h2, h3, h4, h5⟩
    exact ⟨h1, e1.mpr h2, e2.mpr h3, e3.mpr h4, e4.mpr h5, Or.inl rfl⟩

/-- The extended loop on an exactly embedded table runs like the simple loop on
the original table. -/
theorem check_packet_loop_embed_exact (rules : List test_rules.ipt_rule_t) (cs : Nat → Nat)
    (src_ip dst_ip src_port dst_port : Nat) (proto : Int)
    (hs : src_ip < 2 ^ 32) (hd : dst_ip < 2 ^ 32) :
    ∀ (n i : Nat),
      (∀ (j : Nat) (rj : test_rules.ipt_rule_t), i ≤ j → j < i + n → rules[j]? = some rj →
        rj.src_ip < 2 ^ 32 ∧ rj.dst_ip < 2 ^ 32) →
      check_packet_loop (rules.map embed_exact) cs src_ip dst_ip src_port dst_port proto n i =
        test_rules.check_packet_loop rules src_ip dst_ip src_port dst_port proto n i := by
  intro n
  induction n with
  | zero => intro i _; rfl
  | succ n ih =>
    intro i hall
    have hrec := ih (i + 1) (fun j rj h1 h2 h3 => hall j rj (by omega) (by omega) h3)
    cases hri : rules[i]? with
    | none => simp [check_packet_loop, test_rules.check_packet_loop, hri]
    | some r =>
      obtain ⟨hrs, hrd⟩ := hall i r (Nat.le_refl i) (by omega) hri
      have hflag := rule_match_embed_exact r (cs i) src_ip dst_ip src_port dst_port proto
        hs hd hrs hrd
      have hact : (embed_exact r).action = r.action := rfl
      simp [check_packet_loop, test_rules.check_packet_loop, hri, hflag, hrec, hact]

/-- C25. The corrected embedding of the simple matcher into the extended one is
exact: for every simple-variant table and every packet (addresses being 32-bit
values), the extended `check_packet` on the table obtained by setting
`src_mask = 0` when `src_ip = 0` and `0xFFFFFFFF` otherwise (same for
`dst_mask`), `src_port_high = src_port`, `dst_port_high = dst_port` and
`has_state = false` returns the same verdict as the simple `check_packet` on
the original table. -/
theorem exact_embedding_agrees (rules : List test_rules.ipt_rule_t) (rules_count : Int)
    (current_state : Nat → Nat) (src_ip dst_ip src_port dst_port : Nat) (proto : Int)
    (hs : src_ip < 2 ^ 32) (hd : dst_ip < 2 ^ 32)
    (hrules : ∀ (j : Nat) (rj : test_rules.ipt_rule_t), (j : Int) < rules_count →
      rules[j]? = some rj → rj.src_ip < 2 ^ 32 ∧ rj.dst_ip < 2 ^ 32) :
    check_packet (rules.map embed_exact) rules_count current_state
        src_ip dst_ip src_port dst_port proto =
      test_rules.check_packet rules rules_count src_ip dst_ip src_port dst_port proto := by
  unfold check_packet test_rules.check_packet
  exact check_packet_loop_embed_exact rules current_state src_ip dst_ip src_port dst_port proto
    hs hd _ 0 (fun j rj _ h2 h3 => hrules j rj (by omega) h3)

/-- Witness for C25: on `[TCP dport 80 ACCEPT, catch-all DROP]` the default test
packet of `main` (source 192.168.1.100), on which the all-ones embedding
differs, gets the same verdict from the simple matcher and from the extended
matcher on the exact embedding. -/
theorem exact_embedding_agrees_witness :
    ((3232235876 : Nat) < 2 ^ 32 ∧ (0 : Nat) < 2 ^ 32) ∧
    check_packet ([test_rules.simple_http_rule, test_rules.simple_catch_all_drop].map
        embed_exact) 2 plain_state 3232235876 0 1024 80 6 =
      test_rules.check_packet [test_rules.simple_http_rule, test_rules.simple_catch_all_drop] 2
        3232235876 0 1024 80 6 :=
  ⟨by decide,
    exact_embedding_agrees [test_rules.simple_http_rule, test_rules.simple_catch_all_drop] 2
      plain_state 3232235876 0 1024 80 6 (by decide) (by decide)
      (fun j rj _ hrj => by
        have hmem : rj ∈ [test_rules.simple_http_rule, test_rules.simple_catch_all_drop] :=
          List.getElem?_mem hrj
        simp only [List.mem_cons, List.mem_singleton, List.not_mem_nil, or_false] at hmem
        rcases hmem with h | h
        · subst h; decide
        · subst h; decide)⟩

end iptables_rules

/-! ## Masks: monotonicity and the redundant guard (C26, C27) -/

namespace iptables_rules

/-- Masked equality under a mask `m2` gives masked equality under every mask
`m1` whose bits are all set in `m2`. -/
theorem masked_eq_of_submask (x y m1 m2 : Nat) (hsub : m1 &&& m2 = m1)
    (h : x &&& m2 = y &&& m2) : x &&& m1 = y &&& m1 := by
  have hx : x &&& m1 = (x &&& m2) &&& m1 := by
    rw [Nat.and_assoc, Nat.and_comm m2 m1, hsub]
  have hy : y &&& m1 = (y &&& m2) &&& m1 := by
    rw [Nat.and_assoc, Nat.and_comm m2 m1, hsub]
  rw [hx, hy, h]

/-- C26. Mask monotonicity: for all values `rule_ip`, `pkt_ip` and masks `m1`,
`m2` with `m1 & m2 = m1` (every bit of `m1` is set in `m2`), if the address
check passes for (`rule_ip`, mask `m2`) on `pkt_ip` then it passes for
(`rule_ip`, mask `m1`) on `pkt_ip`, for the source and for the destination
address; a rule that matches a packet still matches it when its mask is
replaced by such an `m1`, so widening a mask can only shrink the set of
addresses matched. -/
theorem mask_monotone :
    (∀ (r : ipt_rule_t) (pkt_ip m1 m2 : Nat), m1 &&& m2 = m1 →
      src_ip_mismatch { r with src_mask := m2 } pkt_ip = false →
      src_ip_mismatch { r with src_mask := m1 } pkt_ip = false) ∧
    (∀ (r : ipt_rule_t) (pkt_ip m1 m2 : Nat), m1 &&& m2 = m1 →
      dst_ip_mismatch { r with dst_mask := m2 } pkt_ip = false →
      dst_ip_mismatch { r with dst_mask := m1 } pkt_ip = false) ∧
    (∀ (r : ipt_rule_t) (state src_ip dst_ip src_port dst_port : Nat) (proto : Int)
        (m1 m2 : Nat), m1 &&& m2 = m1 →
      rule_match { r with src_mask := m2 } state src_ip dst_ip src_port dst_port proto = true →
      rule_match { r with src_mask := m1 } state src_ip dst_ip src_port dst_port proto = true) ∧
    (∀ (r : ipt_rule_t) (state src_ip dst_ip src_port dst_port : Nat) (proto : Int)
        (m1 m2 : Nat), m1 &&& m2 = m1 →
      rule_match { r with dst_mask := m2 } state src_ip dst_ip src_port dst_port proto = true →
      rule_match { r with dst_mask := m1 } state src_ip dst_ip src_port dst_port proto =
        true) := by
  have hpred : ∀ (x y m1 m2 : Nat), m1 &&& m2 = m1 →
      (m2 = 0 ∨ x &&& m2 = y &&& m2) → (m1 = 0 ∨ x &&& m1 = y &&& m1) := by
    intro x y m1 m2 hsub h
    rcases h with h | h
    · left
      rw [← hsub, h, Nat.and_zero]
    · exact Or.inr (masked_eq_of_submask x y m1 m2 hsub h)
  refine ⟨?_, ?_, ?_, ?_⟩
  · intro r ip m1 m2 hsub h
    rw [src_ip_mismatch_eq_false] at h ⊢
    exact hpred ip r.src_ip m1 m2 hsub h
  · intro r ip m1 m2 hsub h
    rw [dst_ip_mismatch_eq_false] at h ⊢
    exact hpred ip r.dst_ip m1 m2 hsub h
  · intro r s a b c d p m1 m2 hsub h
    rw [rule_match_eq_true] at h ⊢
    obtain ⟨h1, h2, h3, h4, h5, h6⟩ := h
    exact ⟨h1, hpred a r.src_ip m1 m2 hsub h2, h3, h4, h5, h6⟩
  · intro r s a b c d p m1 m2 hsub h
    rw [rule_match_eq_true] at h ⊢
    obtain ⟨h1, h2, h3, h4, h5, h6⟩ := h
    exact ⟨h1, h2, hpred b r.dst_ip m1 m2 hsub h3, h4, h5, h6⟩

/-- Witness for C26: the rule of scenario 3 (destination 2886795265 under mask
`0xFFFFFFFF`) passes the destination check for that address, and still passes
it under the mask `0xFFFF0000`, all of whose bits are set in `0xFFFFFFFF`. -/
theorem mask_monotone_witness :
    ((0xFFFF0000 : Nat) &&& 0xFFFFFFFF = 0xFFFF0000 ∧
      dst_ip_mismatch { scenario_ipsec_rule with dst_mask := 0xFFFFFFFF } 2886795265 = false) ∧
    dst_ip_mismatch { scenario_ipsec_rule with dst_mask := 0xFFFF0000 } 2886795265 = false :=
  ⟨⟨by decide, by decide⟩,
    mask_monotone.2.1 scenario_ipsec_rule 2886795265 0xFFFF0000 0xFFFFFFFF (by decide)
      (by decide)⟩

/-- Without the `mask != 0` guards the flag `match` is the same. -/
theorem rule_match_no_mask_guard_eq :
    rule_match_no_mask_guard = rule_match := by
  funext r s a b c d p
  have hsrc : (apply_mask a r.src_mask != apply_mask r.src_ip r.src_mask) =
      src_ip_mismatch r a := by
    unfold src_ip_mismatch apply_mask
    by_cases h : r.src_mask = 0
    · simp [h]
    · simp [h]
  have hdst : (apply_mask b r.dst_mask != apply_mask r.dst_ip r.dst_mask) =
      dst_ip_mismatch r b := by
    unfold dst_ip_mismatch apply_mask
    by_cases h : r.dst_mask = 0
    · simp [h]
    · simp [h]
  unfold rule_match_no_mask_guard rule_match
  rw [hsrc, hdst]

/-- The loop with `rule_match` for its flag is the loop of `check_packet`. -/
theorem check_packet_loop_with_rule_match (rules : List ipt_rule_t) (cs : Nat → Nat)
    (src_ip dst_ip src_port dst_port : Nat) (proto : Int) :
    ∀ (n i : Nat),
      check_packet_loop_with rule_match rules cs src_ip dst_ip src_port dst_port proto n i =
        check_packet_loop rules cs src_ip dst_ip src_port dst_port proto n i := by
  intro n
  induction n with
  | zero => intro i; rfl
  | succ n ih =>
    intro i
    unfold check_packet_loop_with check_packet_loop
    rw [ih (i + 1)]

/-- C27. The explicit `mask != 0` guard in the address checks is redundant: for
all `pkt_ip`, `rule_ip` and `mask`, `mask != 0 && apply_mask(pkt_ip, mask) !=
apply_mask(rule_ip, mask)` holds exactly when `apply_mask(pkt_ip, mask) !=
apply_mask(rule_ip, mask)`, so the extended `check_packet` returns the same
verdict for every table and packet as the variant with both guards removed.
The port-low `!= 0` guard is not redundant: without it the one-rule table
`{TCP, nothing else constrained, ACCEPT}` drops the default test packet of
`main`, which `check_packet` accepts. -/
theorem mask_guard_redundant :
    (∀ (pkt_ip rule_ip mask : Nat),
      (mask != 0 && apply_mask pkt_ip mask != apply_mask rule_ip mask) =
        (apply_mask pkt_ip mask != apply_mask rule_ip mask)) ∧
    (∀ (rules : List ipt_rule_t) (rules_count : Int) (current_state : Nat → Nat)
        (src_ip dst_ip src_port dst_port : Nat) (proto : Int),
      check_packet_no_mask_guard rules rules_count current_state
          src_ip dst_ip src_port dst_port proto =
        check_packet rules rules_count current_state src_ip dst_ip src_port dst_port proto) ∧
    (check_packet_no_port_guard [scenario_tcp_rule] 1 plain_state 3232235876 0 1024 80 6 =
        some ACTION_DROP ∧
      check_packet [scenario_tcp_rule] 1 plain_state 3232235876 0 1024 80 6 =
        some ACTION_ACCEPT) := by
  refine ⟨?_, ?_, by decide⟩
  · intro x y m
    unfold apply_mask
    by_cases h : m = 0
    · simp [h]
    · simp [h]
  · intro rules rules_count cs a b c d p
    unfold check_packet_no_mask_guard check_packet
    rw [rule_match_no_mask_guard_eq]
    exact check_packet_loop_with_rule_match rules cs a b c d p _ 0

end iptables_rules
